import Mathlib

/-!
# NRD specular method: pool / pass declaration and per-frame constant packing

A shallow embedding of `DenoiserImpl::AddMethod_NrdSpecular` and
`DenoiserImpl::UpdateMethod_NrdSpecular` (NRD/Source/Methods/NrdSpecular.hpp)
over the public descriptor types of Include/NRDDescs.h.

Machine integers are natural numbers, reduced where the source narrows them:
the 16-bit grid size of a dispatch (`% 2 ^ 16`) and the 32-bit checkerboard
sum (`% 2 ^ 32`). Floating-point values are elements of an arbitrary type
`F`: the packer only copies them, multiplies them, converts integers to them
and writes literals.
-/

namespace nrd

/-! ## Include/NRDDescs.h -/

/-- The enum class `nrd::Result`. -/
inductive Result
  | SUCCESS
  | FAILURE
  | INVALID_ARGUMENT
  | MAX_NUM
  deriving DecidableEq, Repr

/-- The enum class `nrd::ResourceType`, enumerators in declaration order. -/
inductive ResourceType
  | IN_MV
  | IN_NORMAL_ROUGHNESS
  | IN_VIEWZ
  | IN_DIFF_RADIANCE_HITDIST
  | IN_SPEC_RADIANCE_HITDIST
  | IN_DIFF_HITDIST
  | IN_SPEC_HITDIST
  | IN_DIFF_DIRECTION_HITDIST
  | IN_DIFF_SH0
  | IN_DIFF_SH1
  | IN_SPEC_SH0
  | IN_SPEC_SH1
  | IN_DIFF_DIRECTION_PDF
  | IN_SPEC_DIRECTION_PDF
  | IN_DIFF_CONFIDENCE
  | IN_SPEC_CONFIDENCE
  | IN_SHADOWDATA
  | IN_SHADOW_TRANSLUCENCY
  | IN_RADIANCE
  | IN_DELTA_PRIMARY_POS
  | IN_DELTA_SECONDARY_POS
  | OUT_DIFF_RADIANCE_HITDIST
  | OUT_SPEC_RADIANCE_HITDIST
  | OUT_DIFF_SH0
  | OUT_DIFF_SH1
  | OUT_SPEC_SH0
  | OUT_SPEC_SH1
  | OUT_DIFF_HITDIST
  | OUT_SPEC_HITDIST
  | OUT_DIFF_DIRECTION_HITDIST
  | OUT_SHADOW_TRANSLUCENCY
  | OUT_RADIANCE
  | OUT_REFLECTION_MV
  | OUT_DELTA_MV
  | TRANSIENT_POOL
  | PERMANENT_POOL
  | MAX_NUM
  deriving DecidableEq, Repr

namespace ResourceType

/-- The enumerators in declaration order: the position of one is its value. -/
def enumerators : List ResourceType :=
  [IN_MV, IN_NORMAL_ROUGHNESS, IN_VIEWZ, IN_DIFF_RADIANCE_HITDIST,
   IN_SPEC_RADIANCE_HITDIST, IN_DIFF_HITDIST, IN_SPEC_HITDIST,
   IN_DIFF_DIRECTION_HITDIST, IN_DIFF_SH0, IN_DIFF_SH1, IN_SPEC_SH0, IN_SPEC_SH1,
   IN_DIFF_DIRECTION_PDF, IN_SPEC_DIRECTION_PDF, IN_DIFF_CONFIDENCE,
   IN_SPEC_CONFIDENCE, IN_SHADOWDATA, IN_SHADOW_TRANSLUCENCY, IN_RADIANCE,
   IN_DELTA_PRIMARY_POS, IN_DELTA_SECONDARY_POS, OUT_DIFF_RADIANCE_HITDIST,
   OUT_SPEC_RADIANCE_HITDIST, OUT_DIFF_SH0, OUT_DIFF_SH1, OUT_SPEC_SH0,
   OUT_SPEC_SH1, OUT_DIFF_HITDIST, OUT_SPEC_HITDIST, OUT_DIFF_DIRECTION_HITDIST,
   OUT_SHADOW_TRANSLUCENCY, OUT_RADIANCE, OUT_REFLECTION_MV, OUT_DELTA_MV,
   TRANSIENT_POOL, PERMANENT_POOL, MAX_NUM]

/-- The underlying value of an enumerator (`AsUint` on a `ResourceType`). -/
def AsUint (t : ResourceType) : Nat := enumerators.indexOf t

/-- The cast `(ResourceType) value`; a value past the last enumerator is
read as `MAX_NUM`. -/
def ofUint (n : Nat) : ResourceType := enumerators.getD n MAX_NUM

end ResourceType

/-- The enum class `nrd::Format`. -/
inductive Format
  | R8_UNORM | R8_SNORM | R8_UINT | R8_SINT
  | RG8_UNORM | RG8_SNORM | RG8_UINT | RG8_SINT
  | RGBA8_UNORM | RGBA8_SNORM | RGBA8_UINT | RGBA8_SINT | RGBA8_SRGB
  | R16_UNORM | R16_SNORM | R16_UINT | R16_SINT | R16_SFLOAT
  | RG16_UNORM | RG16_SNORM | RG16_UINT | RG16_SINT | RG16_SFLOAT
  | RGBA16_UNORM | RGBA16_SNORM | RGBA16_UINT | RGBA16_SINT | RGBA16_SFLOAT
  | R32_UINT | R32_SINT | R32_SFLOAT
  | RG32_UINT | RG32_SINT | RG32_SFLOAT
  | RGB32_UINT | RGB32_SINT | RGB32_SFLOAT
  | RGBA32_UINT | RGBA32_SINT | RGBA32_SFLOAT
  | R10_G10_B10_A2_UNORM | R10_G10_B10_A2_UINT | R11_G11_B10_UFLOAT
  | R9_G9_B9_E5_UFLOAT
  | MAX_NUM
  deriving DecidableEq, Repr

/-- The enum class `nrd::DescriptorType`. -/
inductive DescriptorType
  | TEXTURE
  | STORAGE_TEXTURE
  | MAX_NUM
  deriving DecidableEq, Repr

/-- The struct `nrd::TextureDesc`. -/
structure TextureDesc where
  format : Format
  width : Nat
  height : Nat
  mipNum : Nat
  deriving DecidableEq, Repr

/-- The struct `nrd::Resource`. -/
structure Resource where
  stateNeeded : DescriptorType
  type : ResourceType
  indexInPool : Nat
  mipOffset : Nat
  mipNum : Nat
  deriving DecidableEq, Repr

/-- The struct `nrd::DescriptorRangeDesc`. -/
structure DescriptorRangeDesc where
  descriptorType : DescriptorType
  baseRegisterIndex : Nat
  descriptorNum : Nat
  deriving DecidableEq, Repr

/-- The compute shaders the specular method hands to `AddDispatch`. -/
inductive Shader
  | NRD_Specular_PreBlur
  | NRD_Specular_TemporalAccumulation
  | NRD_Specular_Mips
  | NRD_Specular_HistoryFix
  | NRD_Specular_Blur
  | NRD_Specular_PostBlur
  | NRD_Specular_TemporalStabilization
  deriving DecidableEq, Repr

/-- The struct `nrd::DispatchDesc`; a pointer and its count are a list and
its length. The constant bytes are filled per frame, not at build time, and
`pipelineIndex` is left out: the pipeline list is kept outside the two source
files, and the builder's pass record names the shader instead. -/
structure DispatchDesc where
  name : String := ""
  resources : List Resource := []
  resourceNum : Nat := 0
  constantBufferDataSize : Nat := 0
  gridWidth : Nat := 0
  gridHeight : Nat := 0
  deriving DecidableEq, Repr

/-! ## Constants and helpers declared outside the two source files -/

/-- The constants the method uses whose declarations are not part of the two
source files. `IN_SPEC_HIT` and `OUT_SPEC_HIT` are the two `ResourceType`
enumerators the method names that the header at hand does not list. -/
structure Env where
  PERMANENT_POOL_START : Nat
  TRANSIENT_POOL_START : Nat
  IN_SPEC_HIT : ResourceType
  OUT_SPEC_HIT : ResourceType
  /-- The thread-group tile of a plain `AddDispatch`. -/
  ctaWidth : Nat
  ctaHeight : Nat
  /-- Bytes written by `AddSharedConstants`. -/
  sharedConstantsSize : Nat
  NRD_SPECULAR_MAX_HISTORY_FRAME_NUM : Nat
  sizeof_NrdSpecularSettings : Nat
  deriving DecidableEq, Repr

/-- The pool-start constants are 16-bit values that lie above every
`ResourceType` value, permanent slots below transient ones, with room for the
four permanent and three transient slots of the method; `IN_SPEC_HIT` and
`OUT_SPEC_HIT` are resources of the host, listed before the two pool
enumerators. -/
def Env.WellFormed (c : Env) : Prop :=
  ResourceType.MAX_NUM.AsUint < c.PERMANENT_POOL_START ∧
  c.PERMANENT_POOL_START + 4 ≤ c.TRANSIENT_POOL_START ∧
  c.TRANSIENT_POOL_START + 3 ≤ 2 ^ 16 ∧
  c.IN_SPEC_HIT.AsUint < ResourceType.TRANSIENT_POOL.AsUint ∧
  c.OUT_SPEC_HIT.AsUint < ResourceType.TRANSIENT_POOL.AsUint

instance (c : Env) : Decidable c.WellFormed := by
  unfold Env.WellFormed; infer_instance

/-- A reference whose slot alternates between frames: the resource at
position `resourceIndex` of its pass uses slot `indexInPoolToSwapWith` of the
same pool on the other frames. -/
structure PingPong where
  resourceIndex : Nat
  indexInPoolToSwapWith : Nat
  deriving DecidableEq, Repr

/-- A declared pass as the builder keeps it: the public dispatch description,
the shader of its pipeline with the pipeline's descriptor ranges, and the
ping-pong references among its resources. -/
structure InternalDispatchDesc where
  desc : DispatchDesc
  shader : Shader
  descriptorRanges : List DescriptorRangeDesc
  pingPongs : List PingPong
  deriving DecidableEq, Repr

/-- The builder state of `DenoiserImpl`: the two pools, the pass being
declared, and the passes declared so far. -/
structure DenoiserImpl where
  m_PermanentPool : List TextureDesc := []
  m_TransientPool : List TextureDesc := []
  m_PassName : String := ""
  m_Resources : List Resource := []
  m_PingPongs : List PingPong := []
  m_Dispatches : List InternalDispatchDesc := []
  deriving DecidableEq, Repr

/-- Modelled from the spec: `DivideUp` is not in the source files; the spec
has grid sizes "computed by rounding the method's resolution up to a
pass-specific thread-group tile size", i.e. the quotient rounded up. -/
def DivideUp (x y : Nat) : Nat := (x + y - 1) / y

/-- Modelled from the spec: `SumConstants` is not in the source files. The
declared constant size of a pass is the shared block plus its 4x4 matrices,
4-vectors, 2-vectors and scalars of 32-bit components (64, 16, 8 and 4
bytes). -/
def SumConstants (c : Env) (float4x4Num float4Num float2Num float1Num : Nat) : Nat :=
  c.sharedConstantsSize + 64 * float4x4Num + 16 * float4Num + 8 * float2Num + 4 * float1Num

/-- The statement `m_PermanentPool.push_back(d)`: the descriptor is appended
to the pool. The method names its slots by consecutive enumerators in the
order of these statements, one slot for each. -/
def m_PermanentPool_push_back (d : TextureDesc) : StateM DenoiserImpl Unit :=
  modify fun s => { s with m_PermanentPool := s.m_PermanentPool ++ [d] }

/-- The statement `m_TransientPool.push_back(d)`: the descriptor is appended
to the pool, as for the permanent pool. -/
def m_TransientPool_push_back (d : TextureDesc) : StateM DenoiserImpl Unit :=
  modify fun s => { s with m_TransientPool := s.m_TransientPool ++ [d] }

/-- Modelled from the spec: `PushPass` is not in the source files;
"`beginPass(name)` opens a pass", with an empty reference list. -/
def PushPass (name : String) : StateM DenoiserImpl Unit :=
  modify fun s => { s with m_PassName := name, m_Resources := [], m_PingPongs := [] }

/-- Modelled from the spec: the pool an index names. "Source uses contiguous
enum values starting at a pool-base constant to index into pools": an index
from `TRANSIENT_POOL_START` on is a transient slot, one from
`PERMANENT_POOL_START` on a permanent slot, any other a `ResourceType`. -/
def resourceTypeOf (c : Env) (index : Nat) : ResourceType :=
  if c.TRANSIENT_POOL_START ≤ index then ResourceType.TRANSIENT_POOL
  else if c.PERMANENT_POOL_START ≤ index then ResourceType.PERMANENT_POOL
  else ResourceType.ofUint index

/-- Modelled from the spec: the slot an index names, counted from the first
slot the method declares in that pool; 0 for a resource outside the pools. -/
def poolLocalIndex (c : Env) (index : Nat) : Nat :=
  if c.TRANSIENT_POOL_START ≤ index then index - c.TRANSIENT_POOL_START
  else if c.PERMANENT_POOL_START ≤ index then index - c.PERMANENT_POOL_START
  else 0

/-- Modelled from the spec: the appending part of `PushInput` and
`PushOutput`, which are not in the source files: "append to that pass's
ordered reference lists". A pool reference given a slot to swap with is also
entered among the ping-pongs of the pass. The spec also has a declaration
validate the mip sub-range and fail with INVALID_ARGUMENT; that check is left
out here, so this definition says nothing about a reference that is out of
range. For the references `AddMethod_NrdSpecular` passes the omission changes
nothing: every one of them is in range, and the method reads no result. -/
def pushResource (c : Env) (stateNeeded : DescriptorType) (indexInPool mipOffset mipNum : Nat)
    (indexToSwapWith : Option Nat) : StateM DenoiserImpl Unit :=
  modify fun s =>
    { s with
      m_Resources := s.m_Resources ++
        [⟨stateNeeded, resourceTypeOf c indexInPool, poolLocalIndex c indexInPool,
          mipOffset, mipNum⟩],
      m_PingPongs := s.m_PingPongs ++
        (match indexToSwapWith with
          | none => []
          | some i =>
            if c.PERMANENT_POOL_START ≤ indexInPool then
              [⟨s.m_Resources.length, poolLocalIndex c i⟩]
            else []) }

/-- The call `PushInput(indexInPool, mipOffset, mipNum, indexToSwapWith)`: a
read-only texture reference; without mip arguments it is mip 0, one mip. -/
def PushInput (c : Env) (indexInPool : Nat) (mipOffset : Nat := 0) (mipNum : Nat := 1)
    (indexToSwapWith : Option Nat := none) : StateM DenoiserImpl Unit :=
  pushResource c DescriptorType.TEXTURE indexInPool mipOffset mipNum indexToSwapWith

/-- The call `PushOutput(indexInPool, mipOffset, mipNum, indexToSwapWith)`: a
storage texture reference; without mip arguments it is mip 0, one mip. -/
def PushOutput (c : Env) (indexInPool : Nat) (mipOffset : Nat := 0) (mipNum : Nat := 1)
    (indexToSwapWith : Option Nat := none) : StateM DenoiserImpl Unit :=
  pushResource c DescriptorType.STORAGE_TEXTURE indexInPool mipOffset mipNum indexToSwapWith

/-- Modelled from the spec: descriptor ranges "are derived from the contiguous
runs of same-type references (textures vs. storage textures) in declaration
order, grouped into `DescriptorRangeDesc` entries with a base register index
that increments by run length". The second argument is the base register of
the next range. -/
def descriptorRangesFrom : List Resource → Nat → List DescriptorRangeDesc
  | [], _ => []
  | r :: rs, base =>
    match descriptorRangesFrom rs (base + 1) with
    | [] => [⟨r.stateNeeded, base, 1⟩]
    | d :: ds =>
      if d.descriptorType = r.stateNeeded then
        ⟨r.stateNeeded, base, d.descriptorNum + 1⟩ :: ds
      else
        ⟨r.stateNeeded, base, 1⟩ :: d :: ds

/-- The descriptor ranges of a resource list, registers counted from 0. -/
def descriptorRanges (rs : List Resource) : List DescriptorRangeDesc :=
  descriptorRangesFrom rs 0

/-- Modelled from the spec: the body shared by the `AddDispatch` and
`AddDispatchWithExplicitCTASize` macros, which are not in the source files.
It closes the open pass: a dispatch with the pass's name, references and
declared constant size, the descriptor ranges of the references, and a grid
of `width` by `height` rounded up to the tile, stored in 16 bits. -/
def AddComputeDispatchDesc (desc : DispatchDesc) (shader : Shader)
    (width height ctaWidth ctaHeight : Nat) : StateM DenoiserImpl Unit :=
  modify fun s =>
    { s with
      m_Dispatches := s.m_Dispatches ++
        [{ desc :=
             { desc with
               name := s.m_PassName,
               resources := s.m_Resources,
               resourceNum := s.m_Resources.length,
               gridWidth := DivideUp width ctaWidth % 2 ^ 16,
               gridHeight := DivideUp height ctaHeight % 2 ^ 16 },
           shader := shader,
           descriptorRanges := descriptorRanges s.m_Resources,
           pingPongs := s.m_PingPongs }] }

/-- The call `AddDispatch(desc, shader, w, h)`: the default tile. -/
def AddDispatch (c : Env) (desc : DispatchDesc) (shader : Shader) (w h : Nat) :
    StateM DenoiserImpl Unit :=
  AddComputeDispatchDesc desc shader w h c.ctaWidth c.ctaHeight

/-- The call `AddDispatchWithExplicitCTASize(desc, shader, w, h, x, y)`. -/
def AddDispatchWithExplicitCTASize (desc : DispatchDesc) (shader : Shader)
    (w h ctaWidth ctaHeight : Nat) : StateM DenoiserImpl Unit :=
  AddComputeDispatchDesc desc shader w h ctaWidth ctaHeight

/-! ## NRD/Source/Methods/NrdSpecular.hpp: `AddMethod_NrdSpecular` -/

/-- The local `enum class Permanent` of `AddMethod_NrdSpecular`. -/
inductive Permanent
  | PREV_VIEWZ_NORMAL_ROUGHNESS_ACCUMSPEEDS
  | HISTORY
  | STABILIZED_HISTORY_1
  | STABILIZED_HISTORY_2
  deriving DecidableEq, Repr

/-- The value of a `Permanent` enumerator: the first is
`PERMANENT_POOL_START`, each next one is one more. -/
def Permanent.AsUint (c : Env) : Permanent → Nat
  | PREV_VIEWZ_NORMAL_ROUGHNESS_ACCUMSPEEDS => c.PERMANENT_POOL_START
  | HISTORY => c.PERMANENT_POOL_START + 1
  | STABILIZED_HISTORY_1 => c.PERMANENT_POOL_START + 2
  | STABILIZED_HISTORY_2 => c.PERMANENT_POOL_START + 3

/-- The local `enum class Transient` of `AddMethod_NrdSpecular`. -/
inductive Transient
  | INTERNAL_DATA
  | ACCUMULATED
  | SCALED_VIEWZ
  deriving DecidableEq, Repr

/-- The value of a `Transient` enumerator: the first is
`TRANSIENT_POOL_START`, each next one is one more. -/
def Transient.AsUint (c : Env) : Transient → Nat
  | INTERNAL_DATA => c.TRANSIENT_POOL_START
  | ACCUMULATED => c.TRANSIENT_POOL_START + 1
  | SCALED_VIEWZ => c.TRANSIENT_POOL_START + 2

/-- The function `DenoiserImpl::AddMethod_NrdSpecular(w, h)`, statement by
statement; the `TEMP` shorthand is written out at its four uses. -/
def AddMethod_NrdSpecular (c : Env) (w h : Nat) : StateM DenoiserImpl Nat := do
  let mut desc : DispatchDesc := {}

  m_PermanentPool_push_back ⟨Format.RG32_UINT, w, h, 1⟩
  m_PermanentPool_push_back ⟨Format.RGBA16_SFLOAT, w, h, 1⟩
  m_PermanentPool_push_back ⟨Format.RGBA16_SFLOAT, w, h, 1⟩
  m_PermanentPool_push_back ⟨Format.RGBA16_SFLOAT, w, h, 1⟩

  m_TransientPool_push_back ⟨Format.RGBA8_UNORM, w, h, 1⟩
  m_TransientPool_push_back ⟨Format.RGBA16_SFLOAT, w, h, 5⟩
  m_TransientPool_push_back ⟨Format.R16_SFLOAT, w, h, 5⟩

  PushPass "Specular - pre-blur"
  PushInput c ResourceType.IN_NORMAL_ROUGHNESS.AsUint
  PushInput c ResourceType.IN_VIEWZ.AsUint
  PushInput c c.IN_SPEC_HIT.AsUint
  PushOutput c (Permanent.STABILIZED_HISTORY_1.AsUint c) 0 1
    (some (Permanent.STABILIZED_HISTORY_2.AsUint c))
  PushOutput c (Transient.SCALED_VIEWZ.AsUint c)
  desc := { desc with constantBufferDataSize := SumConstants c 1 3 0 1 }
  AddDispatch c desc Shader.NRD_Specular_PreBlur w h

  PushPass "Specular - temporal accumulation"
  PushInput c ResourceType.IN_NORMAL_ROUGHNESS.AsUint
  PushInput c ResourceType.IN_VIEWZ.AsUint
  PushInput c ResourceType.IN_MV.AsUint
  PushInput c (Permanent.HISTORY.AsUint c)
  PushInput c (Permanent.STABILIZED_HISTORY_1.AsUint c) 0 1
    (some (Permanent.STABILIZED_HISTORY_2.AsUint c))
  PushInput c (Permanent.PREV_VIEWZ_NORMAL_ROUGHNESS_ACCUMSPEEDS.AsUint c)
  PushOutput c (Transient.ACCUMULATED.AsUint c)
  PushOutput c (Transient.INTERNAL_DATA.AsUint c)
  desc := { desc with constantBufferDataSize := SumConstants c 4 4 1 4 }
  AddDispatch c desc Shader.NRD_Specular_TemporalAccumulation w h

  PushPass "Specular - mip generation"
  PushInput c (Transient.ACCUMULATED.AsUint c)
  PushInput c (Transient.SCALED_VIEWZ.AsUint c)
  PushOutput c (Transient.ACCUMULATED.AsUint c) 1 1
  PushOutput c (Transient.SCALED_VIEWZ.AsUint c) 1 1
  PushOutput c (Transient.ACCUMULATED.AsUint c) 2 1
  PushOutput c (Transient.SCALED_VIEWZ.AsUint c) 2 1
  PushOutput c (Transient.ACCUMULATED.AsUint c) 3 1
  PushOutput c (Transient.SCALED_VIEWZ.AsUint c) 3 1
  PushOutput c (Transient.ACCUMULATED.AsUint c) 4 1
  PushOutput c (Transient.SCALED_VIEWZ.AsUint c) 4 1
  desc := { desc with constantBufferDataSize := SumConstants c 0 0 0 0 }
  AddDispatchWithExplicitCTASize desc Shader.NRD_Specular_Mips
    (DivideUp w 2) (DivideUp h 2) 16 16

  PushPass "Specular - history fix"
  PushInput c (Transient.INTERNAL_DATA.AsUint c)
  PushInput c ResourceType.IN_NORMAL_ROUGHNESS.AsUint
  PushInput c (Transient.ACCUMULATED.AsUint c) 1 4
  PushInput c (Transient.SCALED_VIEWZ.AsUint c) 0 5
  PushOutput c (Transient.ACCUMULATED.AsUint c)
  desc := { desc with constantBufferDataSize := SumConstants c 0 0 1 0 }
  AddDispatch c desc Shader.NRD_Specular_HistoryFix w h

  PushPass "Specular - blur"
  PushInput c ResourceType.IN_NORMAL_ROUGHNESS.AsUint
  PushInput c (Transient.INTERNAL_DATA.AsUint c)
  PushInput c (Transient.ACCUMULATED.AsUint c)
  PushInput c (Transient.SCALED_VIEWZ.AsUint c)
  PushOutput c (Permanent.STABILIZED_HISTORY_1.AsUint c) 0 1
    (some (Permanent.STABILIZED_HISTORY_2.AsUint c))
  desc := { desc with constantBufferDataSize := SumConstants c 1 3 0 0 }
  AddDispatch c desc Shader.NRD_Specular_Blur w h

  PushPass "Specular - post-blur"
  PushInput c ResourceType.IN_NORMAL_ROUGHNESS.AsUint
  PushInput c (Transient.INTERNAL_DATA.AsUint c)
  PushInput c (Permanent.STABILIZED_HISTORY_1.AsUint c) 0 1
    (some (Permanent.STABILIZED_HISTORY_2.AsUint c))
  PushInput c (Transient.SCALED_VIEWZ.AsUint c)
  PushInput c (Transient.ACCUMULATED.AsUint c)
  PushOutput c (Permanent.HISTORY.AsUint c)
  desc := { desc with constantBufferDataSize := SumConstants c 1 3 0 1 }
  AddDispatch c desc Shader.NRD_Specular_PostBlur w h

  PushPass "Specular - temporal stabilization"
  PushInput c ResourceType.IN_NORMAL_ROUGHNESS.AsUint
  PushInput c ResourceType.IN_VIEWZ.AsUint
  PushInput c ResourceType.IN_MV.AsUint
  PushInput c (Transient.INTERNAL_DATA.AsUint c)
  PushInput c (Permanent.STABILIZED_HISTORY_2.AsUint c) 0 1
    (some (Permanent.STABILIZED_HISTORY_1.AsUint c))
  PushInput c (Permanent.HISTORY.AsUint c)
  PushOutput c (Permanent.PREV_VIEWZ_NORMAL_ROUGHNESS_ACCUMSPEEDS.AsUint c)
  PushOutput c (Permanent.STABILIZED_HISTORY_1.AsUint c) 0 1
    (some (Permanent.STABILIZED_HISTORY_2.AsUint c))
  PushOutput c c.OUT_SPEC_HIT.AsUint
  desc := { desc with constantBufferDataSize := SumConstants c 3 2 2 0 }
  AddDispatch c desc Shader.NRD_Specular_TemporalStabilization w h

  return c.sizeof_NrdSpecularSettings

/-! ## NRD/Source/Methods/NrdSpecular.hpp: `UpdateMethod_NrdSpecular` -/

/-- The enum class `nrd::Method`. -/
inductive Method
  | REBLUR_DIFFUSE | REBLUR_DIFFUSE_OCCLUSION | REBLUR_DIFFUSE_SH
  | REBLUR_SPECULAR | REBLUR_SPECULAR_OCCLUSION | REBLUR_SPECULAR_SH
  | REBLUR_DIFFUSE_SPECULAR | REBLUR_DIFFUSE_SPECULAR_OCCLUSION
  | REBLUR_DIFFUSE_SPECULAR_SH | REBLUR_DIFFUSE_DIRECTIONAL_OCCLUSION
  | SIGMA_SHADOW | SIGMA_SHADOW_TRANSLUCENCY
  | RELAX_DIFFUSE | RELAX_SPECULAR | RELAX_DIFFUSE_SPECULAR
  | REFERENCE
  | SPECULAR_REFLECTION_MV | SPECULAR_DELTA_MV
  | MAX_NUM
  deriving DecidableEq, Repr

/-- The struct `nrd::MethodDesc`. -/
structure MethodDesc where
  method : Method
  fullResolutionWidth : Nat
  fullResolutionHeight : Nat
  deriving DecidableEq, Repr

/-- A vector of three floats. -/
structure float3 (F : Type) where
  x : F
  y : F
  z : F
  deriving DecidableEq, Repr

/-- A vector of four floats. -/
structure float4 (F : Type) where
  x : F
  y : F
  z : F
  w : F
  deriving DecidableEq, Repr

/-- The product `float4 * float`, component by component. -/
def float4.scale {F : Type} [Mul F] (v : float4 F) (k : F) : float4 F :=
  ⟨v.x * k, v.y * k, v.z * k, v.w * k⟩

/-- A 4x4 matrix of floats; the packer copies it whole. -/
structure float4x4 (F : Type) where
  col0 : float4 F
  col1 : float4 F
  col2 : float4 F
  col3 : float4 F
  deriving DecidableEq, Repr

/-- The four hit-distance parameters of the settings. -/
structure HitDistanceParameters (F : Type) where
  A : F
  B : F
  C : F
  D : F
  deriving DecidableEq, Repr

/-- The three lobe-trimming parameters of the settings. -/
structure LobeTrimmingParameters (F : Type) where
  A : F
  B : F
  C : F
  deriving DecidableEq, Repr

/-- The antilag part of the settings. -/
structure AntilagSettings (F : Type) where
  enable : Bool
  intensityThresholdMin : F
  intensityThresholdMax : F
  deriving DecidableEq, Repr

/-- The fields of `NrdSpecularSettings` that `UpdateMethod_NrdSpecular`
reads; `checkerboardMode` is the underlying value of its enum. -/
structure NrdSpecularSettings (F : Type) where
  hitDistanceParameters : HitDistanceParameters F
  lobeTrimmingParameters : LobeTrimmingParameters F
  antilagSettings : AntilagSettings F
  maxAccumulatedFrameNum : Nat
  blurRadius : F
  disocclusionThreshold : F
  postBlurMaxAdaptiveRadiusScale : F
  checkerboardMode : Nat
  deriving DecidableEq, Repr

/-- The settings of a method; only the specular member is read here. -/
structure MethodSettings (F : Type) where
  specular : NrdSpecularSettings F
  deriving DecidableEq, Repr

/-- The fields of `MethodData` that `UpdateMethod_NrdSpecular` reads. -/
structure MethodData (F : Type) where
  desc : MethodDesc
  settings : MethodSettings F
  deriving DecidableEq, Repr

/-- The fields of `m_CommonSettings` that `UpdateMethod_NrdSpecular` reads. -/
structure CommonSettings (F : Type) where
  motionVectorScale : F × F
  metersToUnitsMultiplier : F
  forceReferenceAccumulation : Bool

/-- The per-frame members of `DenoiserImpl` that `UpdateMethod_NrdSpecular`
reads. -/
structure FrameData (F : Type) where
  m_CommonSettings : CommonSettings F
  m_WorldToView : float4x4 F
  m_WorldToViewPrev : float4x4 F
  m_WorldToClip : float4x4 F
  m_WorldToClipPrev : float4x4 F
  m_ViewToWorld : float4x4 F
  m_Rotator : Nat → float4 F
  m_FrustumPrev : float4 F
  m_CameraDelta : float3 F
  m_IsOrthoPrev : F
  m_JitterDelta : F
  m_CheckerboardResolveAccumSpeed : F

/-- One field appended to the constant data of a dispatch. -/
inductive Constant (F : Type)
  | shared
  | float4x4 (m : float4x4 F)
  | float4 (v : float4 F)
  | float2 (x y : F)
  | uint2 (x y : Nat)
  | float (x : F)
  | uint (x : Nat)
  deriving DecidableEq, Repr

/-- The bytes a field takes: the shared block, or 32-bit components. -/
def Constant.size {F : Type} (c : Env) : Constant F → Nat
  | shared => c.sharedConstantsSize
  | float4x4 _ => 64
  | float4 _ => 16
  | float2 _ _ => 8
  | uint2 _ _ => 8
  | float _ => 4
  | uint _ => 4

/-- A dispatch opened by `PushDispatch` in the current frame: its position
among the method's passes, the fields appended so far, and whether
`ValidateConstants` has closed it. -/
structure ActiveDispatch (F : Type) where
  dispatchIndex : Nat
  constants : List (Constant F)
  validated : Bool
  deriving DecidableEq, Repr

/-- The bytes packed for a dispatch. -/
def ActiveDispatch.dataSize {F : Type} (c : Env) (d : ActiveDispatch F) : Nat :=
  (d.constants.map (Constant.size c)).sum

/-- Apply `f` to the entry at position `i` of a list. -/
def modifyAt {α : Type} (f : α → α) : Nat → List α → List α
  | _, [] => []
  | 0, a :: as => f a :: as
  | i + 1, a :: as => a :: modifyAt f i as

/-- Modelled from the spec: `PushDispatch` is not in the source files. It
opens the dispatch of the pass at position `localIndex` and returns the
cursor into its constant data, here the dispatch's place in the frame. -/
def PushDispatch {F : Type} (_methodData : MethodData F) (localIndex : Nat) :
    StateM (List (ActiveDispatch F)) Nat :=
  fun ds => (ds.length, ds ++ [⟨localIndex, [], false⟩])

/-- Append one field at the cursor `data`. -/
def addConstant {F : Type} (data : Nat) (x : Constant F) :
    StateM (List (ActiveDispatch F)) Unit :=
  modify (modifyAt (fun d => { d with constants := d.constants ++ [x] }) data)

/-- Modelled from the spec: `AddSharedConstants` appends "the shared
constants block", the same for every pass. -/
def AddSharedConstants {F : Type} (_methodData : MethodData F) (data : Nat) :
    StateM (List (ActiveDispatch F)) Unit :=
  addConstant data Constant.shared

/-- The call `AddFloat4x4(data, m)`. -/
def AddFloat4x4 {F : Type} (data : Nat) (m : float4x4 F) :
    StateM (List (ActiveDispatch F)) Unit :=
  addConstant data (Constant.float4x4 m)

/-- The call `AddFloat4(data, v)`. -/
def AddFloat4 {F : Type} (data : Nat) (v : float4 F) :
    StateM (List (ActiveDispatch F)) Unit :=
  addConstant data (Constant.float4 v)

/-- The call `AddFloat2(data, x, y)`. -/
def AddFloat2 {F : Type} (data : Nat) (x y : F) : StateM (List (ActiveDispatch F)) Unit :=
  addConstant data (Constant.float2 x y)

/-- The call `AddUint2(data, x, y)`. -/
def AddUint2 {F : Type} (data : Nat) (x y : Nat) : StateM (List (ActiveDispatch F)) Unit :=
  addConstant data (Constant.uint2 x y)

/-- The call `AddFloat(data, x)`. -/
def AddFloat {F : Type} (data : Nat) (x : F) : StateM (List (ActiveDispatch F)) Unit :=
  addConstant data (Constant.float x)

/-- The call `AddUint(data, x)`. -/
def AddUint {F : Type} (data : Nat) (x : Nat) : StateM (List (ActiveDispatch F)) Unit :=
  addConstant data (Constant.uint x)

/-- Modelled from the spec: `ValidateConstants` closes the dispatch at the
cursor; the size comparison it asserts is stated on `dataSize`. -/
def ValidateConstants {F : Type} (data : Nat) : StateM (List (ActiveDispatch F)) Unit :=
  modify (modifyAt (fun d => { d with validated := true }) data)

/-- The local `enum class Dispatch` of `UpdateMethod_NrdSpecular`. -/
inductive Dispatch
  | PRE_BLUR
  | TEMPORAL_ACCUMULATION
  | MIP_GENERATION
  | HISTORY_FIX
  | BLUR
  | POST_BLUR
  | TEMPORAL_STABILIZATION
  deriving DecidableEq, Repr

/-- The value of a `Dispatch` enumerator: its position, from 0. -/
def Dispatch.AsUint : Dispatch → Nat
  | PRE_BLUR => 0
  | TEMPORAL_ACCUMULATION => 1
  | MIP_GENERATION => 2
  | HISTORY_FIX => 3
  | BLUR => 4
  | POST_BLUR => 5
  | TEMPORAL_STABILIZATION => 6

/-- The function `DenoiserImpl::UpdateMethod_NrdSpecular(methodData)`,
statement by statement, on the frame members `self`. -/
def UpdateMethod_NrdSpecular {F : Type} [OfScientific F] [NatCast F] [Mul F] (c : Env)
    (self : FrameData F) (methodData : MethodData F) :
    StateM (List (ActiveDispatch F)) Unit := do
  let settings := methodData.settings.specular

  let mut maxAccumulatedFrameNum : F :=
    ((min settings.maxAccumulatedFrameNum c.NRD_SPECULAR_MAX_HISTORY_FRAME_NUM : Nat) : F)
  let mut blurRadius : F := settings.blurRadius
  let mut disocclusionThreshold : F := settings.disocclusionThreshold
  let useAntilag : Bool :=
    !self.m_CommonSettings.forceReferenceAccumulation && settings.antilagSettings.enable

  if self.m_CommonSettings.forceReferenceAccumulation then
    maxAccumulatedFrameNum :=
      if settings.maxAccumulatedFrameNum = 0 then (0.0 : F)
      else (c.NRD_SPECULAR_MAX_HISTORY_FRAME_NUM : F)
    blurRadius := (0.0 : F)
    disocclusionThreshold := (0.005 : F)

  let scalingParams : float4 F :=
    float4.scale
      ⟨settings.hitDistanceParameters.A, settings.hitDistanceParameters.B,
        settings.hitDistanceParameters.C, settings.hitDistanceParameters.D⟩
      self.m_CommonSettings.metersToUnitsMultiplier
  let trimmingParams_and_blurRadius : float4 F :=
    ⟨settings.lobeTrimmingParameters.A, settings.lobeTrimmingParameters.B,
      settings.lobeTrimmingParameters.C, blurRadius⟩
  let trimmingParams_and_checkerboardResolveAccumSpeed : float4 F :=
    ⟨settings.lobeTrimmingParameters.A, settings.lobeTrimmingParameters.B,
      settings.lobeTrimmingParameters.C, self.m_CheckerboardResolveAccumSpeed⟩
  let checkerboard : Nat := (settings.checkerboardMode + 2) % 2 ^ 32 % 3

  -- PRE_BLUR
  let mut data ← PushDispatch methodData Dispatch.PRE_BLUR.AsUint
  AddSharedConstants methodData data
  AddFloat4x4 data self.m_WorldToView
  AddFloat4 data (self.m_Rotator 0)
  AddFloat4 data scalingParams
  AddFloat4 data trimmingParams_and_blurRadius
  AddUint data checkerboard
  ValidateConstants data

  -- TEMPORAL_ACCUMULATION
  data ← PushDispatch methodData Dispatch.TEMPORAL_ACCUMULATION.AsUint
  AddSharedConstants methodData data
  AddFloat4x4 data self.m_WorldToViewPrev
  AddFloat4x4 data self.m_WorldToClipPrev
  AddFloat4x4 data self.m_ViewToWorld
  AddFloat4x4 data self.m_WorldToClip
  AddFloat4 data self.m_FrustumPrev
  AddFloat4 data
    ⟨self.m_CameraDelta.x, self.m_CameraDelta.y, self.m_CameraDelta.z, self.m_IsOrthoPrev⟩
  AddFloat4 data scalingParams
  AddFloat4 data trimmingParams_and_checkerboardResolveAccumSpeed
  AddFloat2 data self.m_CommonSettings.motionVectorScale.1
    self.m_CommonSettings.motionVectorScale.2
  AddFloat data disocclusionThreshold
  AddFloat data self.m_JitterDelta
  AddFloat data maxAccumulatedFrameNum
  AddUint data checkerboard
  ValidateConstants data

  -- MIP_GENERATION
  data ← PushDispatch methodData Dispatch.MIP_GENERATION.AsUint
  AddSharedConstants methodData data
  ValidateConstants data

  -- HISTORY_FIX
  data ← PushDispatch methodData Dispatch.HISTORY_FIX.AsUint
  AddSharedConstants methodData data
  AddUint2 data methodData.desc.fullResolutionWidth methodData.desc.fullResolutionHeight
  ValidateConstants data

  -- BLUR
  data ← PushDispatch methodData Dispatch.BLUR.AsUint
  AddSharedConstants methodData data
  AddFloat4x4 data self.m_WorldToView
  AddFloat4 data (self.m_Rotator 1)
  AddFloat4 data scalingParams
  AddFloat4 data trimmingParams_and_blurRadius
  ValidateConstants data

  -- POST_BLUR
  data ← PushDispatch methodData Dispatch.POST_BLUR.AsUint
  AddSharedConstants methodData data
  AddFloat4x4 data self.m_WorldToView
  AddFloat4 data (self.m_Rotator 2)
  AddFloat4 data scalingParams
  AddFloat4 data trimmingParams_and_blurRadius
  AddFloat data settings.postBlurMaxAdaptiveRadiusScale
  ValidateConstants data

  -- TEMPORAL_STABILIZATION
  data ← PushDispatch methodData Dispatch.TEMPORAL_STABILIZATION.AsUint
  AddSharedConstants methodData data
  AddFloat4x4 data self.m_WorldToClipPrev
  AddFloat4x4 data self.m_ViewToWorld
  AddFloat4x4 data self.m_WorldToClip
  AddFloat4 data scalingParams
  AddFloat4 data
    ⟨self.m_CameraDelta.x, self.m_CameraDelta.y, self.m_CameraDelta.z,
      if useAntilag then (1.0 : F) else (0.0 : F)⟩
  AddFloat2 data self.m_CommonSettings.motionVectorScale.1
    self.m_CommonSettings.motionVectorScale.2
  AddFloat2 data settings.antilagSettings.intensityThresholdMin
    settings.antilagSettings.intensityThresholdMax
  ValidateConstants data

/-- The dispatches a frame opens, starting from none. -/
def packedDispatches {F : Type} [OfScientific F] [NatCast F] [Mul F] (c : Env)
    (self : FrameData F) (methodData : MethodData F) : List (ActiveDispatch F) :=
  ((UpdateMethod_NrdSpecular c self methodData).run []).2

/-- The passes the method declares, starting from an empty builder. -/
def declaredPasses (c : Env) (w h : Nat) : List InternalDispatchDesc :=
  ((AddMethod_NrdSpecular c w h).run {}).2.m_Dispatches

/-! ## Readings of the build and of a packed frame used by the statements -/

/-- The pool-local slot of a `Permanent` enumerator: its place among the four
`m_PermanentPool.push_back` statements. -/
def Permanent.slot : Permanent → Nat
  | PREV_VIEWZ_NORMAL_ROUGHNESS_ACCUMSPEEDS => 0
  | HISTORY => 1
  | STABILIZED_HISTORY_1 => 2
  | STABILIZED_HISTORY_2 => 3

/-- The pool-local slot of a `Transient` enumerator: its place among the
three `m_TransientPool.push_back` statements. -/
def Transient.slot : Transient → Nat
  | INTERNAL_DATA => 0
  | ACCUMULATED => 1
  | SCALED_VIEWZ => 2

/-- The builder after the method has run on an empty one. -/
def builtAlone (c : Env) (w h : Nat) : DenoiserImpl :=
  ((AddMethod_NrdSpecular c w h).run {}).2

/-- The descriptor the method declared for the slot a pool reference names;
none for a resource outside the two pools. -/
def declaredTexture (c : Env) (w h : Nat) (type : ResourceType) (slot : Nat) :
    Option TextureDesc :=
  match type with
  | ResourceType.PERMANENT_POOL => (builtAlone c w h).m_PermanentPool[slot]?
  | ResourceType.TRANSIENT_POOL => (builtAlone c w h).m_TransientPool[slot]?
  | _ => none

/-- The five kinds of field `SumConstants` counts: the shared block, 4x4
matrices, 4-vectors, 2-vectors and scalars, of floats or unsigned integers. -/
inductive ConstantKind
  | shared
  | float4x4
  | float4
  | float2
  | float1
  deriving DecidableEq, Repr

/-- The kind of a packed field. -/
def Constant.kind {F : Type} : Constant F → ConstantKind
  | shared => ConstantKind.shared
  | float4x4 _ => ConstantKind.float4x4
  | float4 _ => ConstantKind.float4
  | float2 _ _ => ConstantKind.float2
  | uint2 _ _ => ConstantKind.float2
  | float _ => ConstantKind.float1
  | uint _ => ConstantKind.float1

/-- How many fields of kind `k` a dispatch has packed. -/
def ActiveDispatch.count {F : Type} (d : ActiveDispatch F) (k : ConstantKind) : Nat :=
  (d.constants.map Constant.kind).count k

/-- The field at position `field`, from 0, of the constant data packed for the
pass the `Dispatch` enumerator names. -/
def packedConstant {F : Type} (ds : List (ActiveDispatch F)) (pass : Dispatch) (field : Nat) :
    Option (Constant F) :=
  match ds.find? (fun d => d.dispatchIndex == pass.AsUint) with
  | none => none
  | some d => d.constants[field]?

/-- Modelled from the spec: the resources a pass binds on a frame. The code
that resolves ping-pong references frame by frame is not in the source files;
the slot given as fourth argument of `PushInput` / `PushOutput` is read as
the slot used instead on alternate frames: on a swapped frame the reference
at a ping-pong position names `indexInPoolToSwapWith`, on the others the slot
it was declared with. -/
def resolveResources (resources : List Resource) (pingPongs : List PingPong)
    (swapped : Bool) : List Resource :=
  resources.enum.map fun x =>
    match pingPongs.find? (fun p => p.resourceIndex == x.1) with
    | some p => if swapped then { x.2 with indexInPool := p.indexInPoolToSwapWith } else x.2
    | none => x.2

/-- The resources a declared pass binds on a frame. -/
def InternalDispatchDesc.resolve (d : InternalDispatchDesc) (swapped : Bool) : List Resource :=
  resolveResources d.desc.resources d.pingPongs swapped

/-- Frames alternate: frame 0 binds the declared slots, frame 1 the swapped
ones, and so on. -/
def frameSwapped (frame : Nat) : Bool := frame % 2 == 1

/-- The references of a resource list with a given descriptor state into a
given pool (or to a given resource of the host). -/
def refsOf (stateNeeded : DescriptorType) (type : ResourceType) (rs : List Resource) :
    List Resource :=
  rs.filter fun r => r.stateNeeded == stateNeeded && r.type == type

/-- The references of a pass into the permanent pool on a frame: the inputs
(read-only textures) and the outputs (storage textures). -/
def InternalDispatchDesc.permanentRefs (d : InternalDispatchDesc) (swapped : Bool) :
    List Resource × List Resource :=
  (refsOf DescriptorType.TEXTURE ResourceType.PERMANENT_POOL (d.resolve swapped),
    refsOf DescriptorType.STORAGE_TEXTURE ResourceType.PERMANENT_POOL (d.resolve swapped))

/-- The references of a pass into the transient pool on a frame: the inputs
(read-only textures) and the outputs (storage textures). -/
def InternalDispatchDesc.transientRefs (d : InternalDispatchDesc) (swapped : Bool) :
    List Resource × List Resource :=
  (refsOf DescriptorType.TEXTURE ResourceType.TRANSIENT_POOL (d.resolve swapped),
    refsOf DescriptorType.STORAGE_TEXTURE ResourceType.TRANSIENT_POOL (d.resolve swapped))

/-- How many descriptors the method adds to the permanent pool of a builder. -/
def addedToPermanentPool (c : Env) (w h : Nat) (s : DenoiserImpl) : Nat :=
  ((AddMethod_NrdSpecular c w h).run s).2.m_PermanentPool.length - s.m_PermanentPool.length

/-- How many descriptors the method adds to the transient pool of a builder. -/
def addedToTransientPool (c : Env) (w h : Nat) (s : DenoiserImpl) : Nat :=
  ((AddMethod_NrdSpecular c w h).run s).2.m_TransientPool.length - s.m_TransientPool.length

/-- The mip `m` lies in the mip sub-range of the reference. -/
def Resource.hasMip (r : Resource) (m : Nat) : Prop :=
  r.mipOffset ≤ m ∧ m < r.mipOffset + r.mipNum

instance (r : Resource) (m : Nat) : Decidable (r.hasMip m) := by
  unfold Resource.hasMip; infer_instance

/-- A concrete environment: pools start at 1000 and 2000, 16 by 16 tiles. -/
def env0 : Env :=
  { PERMANENT_POOL_START := 1000
    TRANSIENT_POOL_START := 2000
    IN_SPEC_HIT := ResourceType.IN_SPEC_HITDIST
    OUT_SPEC_HIT := ResourceType.OUT_SPEC_HITDIST
    ctaWidth := 16
    ctaHeight := 16
    sharedConstantsSize := 192
    NRD_SPECULAR_MAX_HISTORY_FRAME_NUM := 32
    sizeof_NrdSpecularSettings := 64 }

/-- Concrete frame members over the rationals, reference accumulation on or
off. -/
def frame0 (forceReferenceAccumulation : Bool) : FrameData ℚ :=
  { m_CommonSettings :=
      { motionVectorScale := (1, 1)
        metersToUnitsMultiplier := 2
        forceReferenceAccumulation := forceReferenceAccumulation }
    m_WorldToView := ⟨⟨1, 0, 0, 0⟩, ⟨0, 1, 0, 0⟩, ⟨0, 0, 1, 0⟩, ⟨0, 0, 0, 1⟩⟩
    m_WorldToViewPrev := ⟨⟨1, 0, 0, 0⟩, ⟨0, 1, 0, 0⟩, ⟨0, 0, 1, 0⟩, ⟨0, 0, 0, 1⟩⟩
    m_WorldToClip := ⟨⟨1, 0, 0, 0⟩, ⟨0, 1, 0, 0⟩, ⟨0, 0, 1, 0⟩, ⟨0, 0, 0, 1⟩⟩
    m_WorldToClipPrev := ⟨⟨1, 0, 0, 0⟩, ⟨0, 1, 0, 0⟩, ⟨0, 0, 1, 0⟩, ⟨0, 0, 0, 1⟩⟩
    m_ViewToWorld := ⟨⟨1, 0, 0, 0⟩, ⟨0, 1, 0, 0⟩, ⟨0, 0, 1, 0⟩, ⟨0, 0, 0, 1⟩⟩
    m_Rotator := fun _ => ⟨1, 0, 0, 1⟩
    m_FrustumPrev := ⟨1, 1, 1, 1⟩
    m_CameraDelta := ⟨0, 0, 0⟩
    m_IsOrthoPrev := 0
    m_JitterDelta := 0
    m_CheckerboardResolveAccumSpeed := 1 }

/-- Concrete method data over the rationals: blur radius 30, disocclusion
threshold 1/100, at most `maxAccumulatedFrameNum` accumulated frames. -/
def methodData0 (maxAccumulatedFrameNum : Nat) : MethodData ℚ :=
  { desc := ⟨Method.REFERENCE, 640, 480⟩
    settings :=
      { specular :=
          { hitDistanceParameters := ⟨3, 1, 20, 25⟩
            lobeTrimmingParameters := ⟨1, 2, 3⟩
            antilagSettings := ⟨true, 1, 2⟩
            maxAccumulatedFrameNum := maxAccumulatedFrameNum
            blurRadius := 30
            disocclusionThreshold := 1 / 100
            postBlurMaxAdaptiveRadiusScale := 5
            checkerboardMode := 0 } } }

/-! ## Theorems -/

/-! ### Shared lemmas -/

/-- Appending the entries of a list one at a time appends the list. -/
theorem foldl_append_singleton {α : Type} (xs l : List α) :
    xs.foldl (fun acc d => acc ++ [d]) l = l ++ xs := by
  induction xs generalizing l with
  | nil => simp
  | cons x xs ih => simp [ih]

/-- From any builder state the method appends to the declared passes exactly
the seven passes it declares on an empty builder. -/
theorem AddMethod_NrdSpecular_dispatches (c : Env) (w h : Nat) (s : DenoiserImpl) :
    ((AddMethod_NrdSpecular c w h).run s).2.m_Dispatches =
      s.m_Dispatches ++ declaredPasses c w h := by
  rw [← foldl_append_singleton]
  rfl

/-- The seven dispatches a frame opens, field by field: the three values the
reference-accumulation override replaces are written as a choice on the flag. -/
theorem packedDispatches_eq {F : Type} [OfScientific F] [NatCast F] [Mul F] (c : Env)
    (self : FrameData F) (methodData : MethodData F) :
    packedDispatches c self methodData =
      [⟨0,
        [Constant.shared,
         Constant.float4x4 self.m_WorldToView,
         Constant.float4 (self.m_Rotator 0),
         Constant.float4
           (float4.scale
             ⟨methodData.settings.specular.hitDistanceParameters.A,
               methodData.settings.specular.hitDistanceParameters.B,
               methodData.settings.specular.hitDistanceParameters.C,
               methodData.settings.specular.hitDistanceParameters.D⟩
             self.m_CommonSettings.metersToUnitsMultiplier),
         Constant.float4
           ⟨methodData.settings.specular.lobeTrimmingParameters.A,
             methodData.settings.specular.lobeTrimmingParameters.B,
             methodData.settings.specular.lobeTrimmingParameters.C,
             if self.m_CommonSettings.forceReferenceAccumulation = true then (0.0 : F)
             else methodData.settings.specular.blurRadius⟩,
         Constant.uint ((methodData.settings.specular.checkerboardMode + 2) % 2 ^ 32 % 3)],
        true⟩,
       ⟨1,
        [Constant.shared,
         Constant.float4x4 self.m_WorldToViewPrev,
         Constant.float4x4 self.m_WorldToClipPrev,
         Constant.float4x4 self.m_ViewToWorld,
         Constant.float4x4 self.m_WorldToClip,
         Constant.float4 self.m_FrustumPrev,
         Constant.float4
           ⟨self.m_CameraDelta.x, self.m_CameraDelta.y, self.m_CameraDelta.z,
             self.m_IsOrthoPrev⟩,
         Constant.float4
           (float4.scale
             ⟨methodData.settings.specular.hitDistanceParameters.A,
               methodData.settings.specular.hitDistanceParameters.B,
               methodData.settings.specular.hitDistanceParameters.C,
               methodData.settings.specular.hitDistanceParameters.D⟩
             self.m_CommonSettings.metersToUnitsMultiplier),
         Constant.float4
           ⟨methodData.settings.specular.lobeTrimmingParameters.A,
             methodData.settings.specular.lobeTrimmingParameters.B,
             methodData.settings.specular.lobeTrimmingParameters.C,
             self.m_CheckerboardResolveAccumSpeed⟩,
         Constant.float2 self.m_CommonSettings.motionVectorScale.1
           self.m_CommonSettings.motionVectorScale.2,
         Constant.float
           (if self.m_CommonSettings.forceReferenceAccumulation = true then (0.005 : F)
            else methodData.settings.specular.disocclusionThreshold),
         Constant.float self.m_JitterDelta,
         Constant.float
           (if self.m_CommonSettings.forceReferenceAccumulation = true then
              (if methodData.settings.specular.maxAccumulatedFrameNum = 0 then (0.0 : F)
               else (c.NRD_SPECULAR_MAX_HISTORY_FRAME_NUM : F))
            else
              ((min methodData.settings.specular.maxAccumulatedFrameNum
                c.NRD_SPECULAR_MAX_HISTORY_FRAME_NUM : Nat) : F)),
         Constant.uint ((methodData.settings.specular.checkerboardMode + 2) % 2 ^ 32 % 3)],
        true⟩,
       ⟨2, [Constant.shared], true⟩,
       ⟨3,
        [Constant.shared,
         Constant.uint2 methodData.desc.fullResolutionWidth
           methodData.desc.fullResolutionHeight],
        true⟩,
       ⟨4,
        [Constant.shared,
         Constant.float4x4 self.m_WorldToView,
         Constant.float4 (self.m_Rotator 1),
         Constant.float4
           (float4.scale
             ⟨methodData.settings.specular.hitDistanceParameters.A,
               methodData.settings.specular.hitDistanceParameters.B,
               methodData.settings.specular.hitDistanceParameters.C,
               methodData.settings.specular.hitDistanceParameters.D⟩
             self.m_CommonSettings.metersToUnitsMultiplier),
         Constant.float4
           ⟨methodData.settings.specular.lobeTrimmingParameters.A,
             methodData.settings.specular.lobeTrimmingParameters.B,
             methodData.settings.specular.lobeTrimmingParameters.C,
             if self.m_CommonSettings.forceReferenceAccumulation = true then (0.0 : F)
             else methodData.settings.specular.blurRadius⟩],
        true⟩,
       ⟨5,
        [Constant.shared,
         Constant.float4x4 self.m_WorldToView,
         Constant.float4 (self.m_Rotator 2),
         Constant.float4
           (float4.scale
             ⟨methodData.settings.specular.hitDistanceParameters.A,
               methodData.settings.specular.hitDistanceParameters.B,
               methodData.settings.specular.hitDistanceParameters.C,
               methodData.settings.specular.hitDistanceParameters.D⟩
             self.m_CommonSettings.metersToUnitsMultiplier),
         Constant.float4
           ⟨methodData.settings.specular.lobeTrimmingParameters.A,
             methodData.settings.specular.lobeTrimmingParameters.B,
             methodData.settings.specular.lobeTrimmingParameters.C,
             if self.m_CommonSettings.forceReferenceAccumulation = true then (0.0 : F)
             else methodData.settings.specular.blurRadius⟩,
         Constant.float methodData.settings.specular.postBlurMaxAdaptiveRadiusScale],
        true⟩,
       ⟨6,
        [Constant.shared,
         Constant.float4x4 self.m_WorldToClipPrev,
         Constant.float4x4 self.m_ViewToWorld,
         Constant.float4x4 self.m_WorldToClip,
         Constant.float4
           (float4.scale
             ⟨methodData.settings.specular.hitDistanceParameters.A,
               methodData.settings.specular.hitDistanceParameters.B,
               methodData.settings.specular.hitDistanceParameters.C,
               methodData.settings.specular.hitDistanceParameters.D⟩
             self.m_CommonSettings.metersToUnitsMultiplier),
         Constant.float4
           ⟨self.m_CameraDelta.x, self.m_CameraDelta.y, self.m_CameraDelta.z,
             if (!self.m_CommonSettings.forceReferenceAccumulation &&
                  methodData.settings.specular.antilagSettings.enable) = true
             then (1.0 : F) else (0.0 : F)⟩,
         Constant.float2 self.m_CommonSettings.motionVectorScale.1
           self.m_CommonSettings.motionVectorScale.2,
         Constant.float2 methodData.settings.specular.antilagSettings.intensityThresholdMin
           methodData.settings.specular.antilagSettings.intensityThresholdMax],
        true⟩] := by
  obtain ⟨⟨mvs, m2u, force⟩, _, _, _, _, _, _, _, _, _, _, _⟩ := self
  cases force <;>
  simp [packedDispatches, UpdateMethod_NrdSpecular, PushDispatch, AddSharedConstants,
    AddFloat4x4, AddFloat4, AddFloat2, AddUint2, AddFloat, AddUint, ValidateConstants,
    addConstant, modifyAt, Dispatch.AsUint, StateT.run, modify, modifyGet,
    MonadStateOf.modifyGet, StateT.modifyGet, bind, StateT.bind, pure, StateT.pure]

/-! ### Classification of the indices the method passes -/

/-- Every `ResourceType` value is at most that of `MAX_NUM`. -/
theorem ResourceType.AsUint_le_MAX_NUM (t : ResourceType) :
    t.AsUint ≤ ResourceType.MAX_NUM.AsUint := by
  cases t <;> decide

/-- Casting the value of an enumerator back gives the enumerator. -/
theorem ResourceType.ofUint_AsUint (t : ResourceType) : ResourceType.ofUint t.AsUint = t := by
  cases t <;> rfl

/-- A `Permanent` enumerator is `PERMANENT_POOL_START` plus its slot. -/
theorem Permanent_AsUint_eq (c : Env) (p : Permanent) :
    p.AsUint c = c.PERMANENT_POOL_START + p.slot := by
  cases p <;> rfl

/-- A `Transient` enumerator is `TRANSIENT_POOL_START` plus its slot. -/
theorem Transient_AsUint_eq (c : Env) (t : Transient) :
    t.AsUint c = c.TRANSIENT_POOL_START + t.slot := by
  cases t <;> rfl

/-- The four permanent slots are 0 to 3. -/
theorem Permanent.slot_lt (p : Permanent) : p.slot < 4 := by
  cases p <;> decide

/-- The index of a `Transient` enumerator names the transient pool. -/
theorem resourceTypeOf_transient (c : Env) (t : Transient) :
    resourceTypeOf c (t.AsUint c) = ResourceType.TRANSIENT_POOL := by
  simp [resourceTypeOf, Transient_AsUint_eq]

/-- The index of a `Transient` enumerator names its slot. -/
theorem poolLocalIndex_transient (c : Env) (t : Transient) :
    poolLocalIndex c (t.AsUint c) = t.slot := by
  simp [poolLocalIndex, Transient_AsUint_eq]

/-- The index of a `Permanent` enumerator names the permanent pool. -/
theorem resourceTypeOf_permanent {c : Env} (hc : c.WellFormed) (p : Permanent) :
    resourceTypeOf c (p.AsUint c) = ResourceType.PERMANENT_POOL := by
  obtain ⟨_, h2, _⟩ := hc
  have := p.slot_lt
  have h : ¬ c.TRANSIENT_POOL_START ≤ c.PERMANENT_POOL_START + p.slot := by omega
  simp [resourceTypeOf, Permanent_AsUint_eq, h]

/-- The index of a `Permanent` enumerator names its slot. -/
theorem poolLocalIndex_permanent {c : Env} (hc : c.WellFormed) (p : Permanent) :
    poolLocalIndex c (p.AsUint c) = p.slot := by
  obtain ⟨_, h2, _⟩ := hc
  have := p.slot_lt
  have h : ¬ c.TRANSIENT_POOL_START ≤ c.PERMANENT_POOL_START + p.slot := by omega
  simp [poolLocalIndex, Permanent_AsUint_eq, h]

/-- The index of a `Permanent` enumerator is a pool index. -/
theorem permanent_start_le (c : Env) (p : Permanent) :
    c.PERMANENT_POOL_START ≤ p.AsUint c := by
  simp [Permanent_AsUint_eq]

/-- The value of a `ResourceType` enumerator names that resource type. -/
theorem resourceTypeOf_type {c : Env} (hc : c.WellFormed) (t : ResourceType) :
    resourceTypeOf c t.AsUint = t := by
  obtain ⟨h1, h2, _⟩ := hc
  have := t.AsUint_le_MAX_NUM
  have h : ¬ c.TRANSIENT_POOL_START ≤ t.AsUint := by omega
  have h' : ¬ c.PERMANENT_POOL_START ≤ t.AsUint := by omega
  simp [resourceTypeOf, h, h', ResourceType.ofUint_AsUint]

/-- The value of a `ResourceType` enumerator names no pool slot. -/
theorem poolLocalIndex_type {c : Env} (hc : c.WellFormed) (t : ResourceType) :
    poolLocalIndex c t.AsUint = 0 := by
  obtain ⟨h1, h2, _⟩ := hc
  have := t.AsUint_le_MAX_NUM
  have h : ¬ c.TRANSIENT_POOL_START ≤ t.AsUint := by omega
  have h' : ¬ c.PERMANENT_POOL_START ≤ t.AsUint := by omega
  simp [poolLocalIndex, h, h']

/-- The two resources the header does not list are not pool references. -/
theorem Env.WellFormed.spec_hit_not_pool {c : Env} (hc : c.WellFormed) :
    c.IN_SPEC_HIT ≠ ResourceType.PERMANENT_POOL ∧
    c.IN_SPEC_HIT ≠ ResourceType.TRANSIENT_POOL ∧
    c.OUT_SPEC_HIT ≠ ResourceType.PERMANENT_POOL ∧
    c.OUT_SPEC_HIT ≠ ResourceType.TRANSIENT_POOL := by
  obtain ⟨_, _, _, h4, h5⟩ := hc
  refine ⟨?_, ?_, ?_, ?_⟩ <;> intro h
  · rw [h] at h4; revert h4; decide
  · rw [h] at h4; revert h4; decide
  · rw [h] at h5; revert h5; decide
  · rw [h] at h5; revert h5; decide

/-- The references of the seven declared passes, resolved to pool and slot,
each pass with its ping-pong references: the position of the reference in
the pass and the permanent slot it alternates with. -/
theorem declaredPasses_references {c : Env} (hc : c.WellFormed) (w h : Nat) :
    (declaredPasses c w h).map (fun d => (d.desc.resources, d.pingPongs)) =
      [([⟨DescriptorType.TEXTURE, ResourceType.IN_NORMAL_ROUGHNESS, 0, 0, 1⟩,
         ⟨DescriptorType.TEXTURE, ResourceType.IN_VIEWZ, 0, 0, 1⟩,
         ⟨DescriptorType.TEXTURE, c.IN_SPEC_HIT, 0, 0, 1⟩,
         ⟨DescriptorType.STORAGE_TEXTURE, ResourceType.PERMANENT_POOL, 2, 0, 1⟩,
         ⟨DescriptorType.STORAGE_TEXTURE, ResourceType.TRANSIENT_POOL, 2, 0, 1⟩],
        [⟨3, 3⟩]),
       ([⟨DescriptorType.TEXTURE, ResourceType.IN_NORMAL_ROUGHNESS, 0, 0, 1⟩,
         ⟨DescriptorType.TEXTURE, ResourceType.IN_VIEWZ, 0, 0, 1⟩,
         ⟨DescriptorType.TEXTURE, ResourceType.IN_MV, 0, 0, 1⟩,
         ⟨DescriptorType.TEXTURE, ResourceType.PERMANENT_POOL, 1, 0, 1⟩,
         ⟨DescriptorType.TEXTURE, ResourceType.PERMANENT_POOL, 2, 0, 1⟩,
         ⟨DescriptorType.TEXTURE, ResourceType.PERMANENT_POOL, 0, 0, 1⟩,
         ⟨DescriptorType.STORAGE_TEXTURE, ResourceType.TRANSIENT_POOL, 1, 0, 1⟩,
         ⟨DescriptorType.STORAGE_TEXTURE, ResourceType.TRANSIENT_POOL, 0, 0, 1⟩],
        [⟨4, 3⟩]),
       ([⟨DescriptorType.TEXTURE, ResourceType.TRANSIENT_POOL, 1, 0, 1⟩,
         ⟨DescriptorType.TEXTURE, ResourceType.TRANSIENT_POOL, 2, 0, 1⟩,
         ⟨DescriptorType.STORAGE_TEXTURE, ResourceType.TRANSIENT_POOL, 1, 1, 1⟩,
         ⟨DescriptorType.STORAGE_TEXTURE, ResourceType.TRANSIENT_POOL, 2, 1, 1⟩,
         ⟨DescriptorType.STORAGE_TEXTURE, ResourceType.TRANSIENT_POOL, 1, 2, 1⟩,
         ⟨DescriptorType.STORAGE_TEXTURE, ResourceType.TRANSIENT_POOL, 2, 2, 1⟩,
         ⟨DescriptorType.STORAGE_TEXTURE, ResourceType.TRANSIENT_POOL, 1, 3, 1⟩,
         ⟨DescriptorType.STORAGE_TEXTURE, ResourceType.TRANSIENT_POOL, 2, 3, 1⟩,
         ⟨DescriptorType.STORAGE_TEXTURE, ResourceType.TRANSIENT_POOL, 1, 4, 1⟩,
         ⟨DescriptorType.STORAGE_TEXTURE, ResourceType.TRANSIENT_POOL, 2, 4, 1⟩],
        []),
       ([⟨DescriptorType.TEXTURE, ResourceType.TRANSIENT_POOL, 0, 0, 1⟩,
         ⟨DescriptorType.TEXTURE, ResourceType.IN_NORMAL_ROUGHNESS, 0, 0, 1⟩,
         ⟨DescriptorType.TEXTURE, ResourceType.TRANSIENT_POOL, 1, 1, 4⟩,
         ⟨DescriptorType.TEXTURE, ResourceType.TRANSIENT_POOL, 2, 0, 5⟩,
         ⟨DescriptorType.STORAGE_TEXTURE, ResourceType.TRANSIENT_POOL, 1, 0, 1⟩],
        []),
       ([⟨DescriptorType.TEXTURE, ResourceType.IN_NORMAL_ROUGHNESS, 0, 0, 1⟩,
         ⟨DescriptorType.TEXTURE, ResourceType.TRANSIENT_POOL, 0, 0, 1⟩,
         ⟨DescriptorType.TEXTURE, ResourceType.TRANSIENT_POOL, 1, 0, 1⟩,
         ⟨DescriptorType.TEXTURE, ResourceType.TRANSIENT_POOL, 2, 0, 1⟩,
         ⟨DescriptorType.STORAGE_TEXTURE, ResourceType.PERMANENT_POOL, 2, 0, 1⟩],
        [⟨4, 3⟩]),
       ([⟨DescriptorType.TEXTURE, ResourceType.IN_NORMAL_ROUGHNESS, 0, 0, 1⟩,
         ⟨DescriptorType.TEXTURE, ResourceType.TRANSIENT_POOL, 0, 0, 1⟩,
         ⟨DescriptorType.TEXTURE, ResourceType.PERMANENT_POOL, 2, 0, 1⟩,
         ⟨DescriptorType.TEXTURE, ResourceType.TRANSIENT_POOL, 2, 0, 1⟩,
         ⟨DescriptorType.TEXTURE, ResourceType.TRANSIENT_POOL, 1, 0, 1⟩,
         ⟨DescriptorType.STORAGE_TEXTURE, ResourceType.PERMANENT_POOL, 1, 0, 1⟩],
        [⟨2, 3⟩]),
       ([⟨DescriptorType.TEXTURE, ResourceType.IN_NORMAL_ROUGHNESS, 0, 0, 1⟩,
         ⟨DescriptorType.TEXTURE, ResourceType.IN_VIEWZ, 0, 0, 1⟩,
         ⟨DescriptorType.TEXTURE, ResourceType.IN_MV, 0, 0, 1⟩,
         ⟨DescriptorType.TEXTURE, ResourceType.TRANSIENT_POOL, 0, 0, 1⟩,
         ⟨DescriptorType.TEXTURE, ResourceType.PERMANENT_POOL, 3, 0, 1⟩,
         ⟨DescriptorType.TEXTURE, ResourceType.PERMANENT_POOL, 1, 0, 1⟩,
         ⟨DescriptorType.STORAGE_TEXTURE, ResourceType.PERMANENT_POOL, 0, 0, 1⟩,
         ⟨DescriptorType.STORAGE_TEXTURE, ResourceType.PERMANENT_POOL, 2, 0, 1⟩,
         ⟨DescriptorType.STORAGE_TEXTURE, c.OUT_SPEC_HIT, 0, 0, 1⟩],
        [⟨4, 2⟩, ⟨7, 3⟩])] := by
  simp [declaredPasses, AddMethod_NrdSpecular, PushPass, PushInput, PushOutput, pushResource,
    AddDispatch, AddDispatchWithExplicitCTASize, AddComputeDispatchDesc,
    m_PermanentPool_push_back, m_TransientPool_push_back, resourceTypeOf_transient,
    poolLocalIndex_transient, resourceTypeOf_permanent hc, poolLocalIndex_permanent hc,
    resourceTypeOf_type hc, poolLocalIndex_type hc, permanent_start_le, Permanent.slot,
    Transient.slot, StateT.run, modify, modifyGet, MonadStateOf.modifyGet,
    StateT.modifyGet, bind, StateT.bind, pure, StateT.pure]

/-- The permanent descriptors of the method built alone. -/
theorem builtAlone_permanentPool (c : Env) (w h : Nat) :
    (builtAlone c w h).m_PermanentPool =
      [⟨Format.RG32_UINT, w, h, 1⟩, ⟨Format.RGBA16_SFLOAT, w, h, 1⟩,
       ⟨Format.RGBA16_SFLOAT, w, h, 1⟩, ⟨Format.RGBA16_SFLOAT, w, h, 1⟩] := rfl

/-- The transient descriptors of the method built alone. -/
theorem builtAlone_transientPool (c : Env) (w h : Nat) :
    (builtAlone c w h).m_TransientPool =
      [⟨Format.RGBA8_UNORM, w, h, 1⟩, ⟨Format.RGBA16_SFLOAT, w, h, 5⟩,
       ⟨Format.R16_SFLOAT, w, h, 5⟩] := rfl

/-! ### C1 -/
/-- C1. In every frame, for each of the seven passes, the fields packed
between `PushDispatch` and `ValidateConstants` are the shared block once and
as many 4x4 matrices, 4-vectors, 2-vectors and scalars as the counts given to
`SumConstants` for the pass at the same position of `AddMethod_NrdSpecular`:
(1,3,0,1), (4,4,1,4), (0,0,0,0), (0,0,1,0), (1,3,0,0), (1,3,0,1), (3,2,2,0).
With 64, 16, 8 and 4 bytes a field, the bytes packed for each pass are the
`constantBufferDataSize` declared for it, and every dispatch is validated. -/
theorem UpdateMethod_NrdSpecular_packs_declared_constants {F : Type} [OfScientific F]
    [NatCast F] [Mul F] (c : Env) (self : FrameData F) (methodData : MethodData F)
    (w h : Nat) :
    (packedDispatches c self methodData).map
        (fun d =>
          (d.dispatchIndex, d.count ConstantKind.shared, d.count ConstantKind.float4x4,
            d.count ConstantKind.float4, d.count ConstantKind.float2,
            d.count ConstantKind.float1, d.validated)) =
      [(0, 1, 1, 3, 0, 1, true), (1, 1, 4, 4, 1, 4, true), (2, 1, 0, 0, 0, 0, true),
       (3, 1, 0, 0, 1, 0, true), (4, 1, 1, 3, 0, 0, true), (5, 1, 1, 3, 0, 1, true),
       (6, 1, 3, 2, 2, 0, true)] ∧
    (declaredPasses c w h).map (fun d => d.desc.constantBufferDataSize) =
      [SumConstants c 1 3 0 1, SumConstants c 4 4 1 4, SumConstants c 0 0 0 0,
       SumConstants c 0 0 1 0, SumConstants c 1 3 0 0, SumConstants c 1 3 0 1,
       SumConstants c 3 2 2 0] ∧
    (packedDispatches c self methodData).map (fun d => d.dataSize c) =
      (declaredPasses c w h).map (fun d => d.desc.constantBufferDataSize) := by
  refine ⟨?_, rfl, ?_⟩
  · rw [packedDispatches_eq]
    rfl
  · have hdecl :
        (declaredPasses c w h).map (fun d => d.desc.constantBufferDataSize) =
          [SumConstants c 1 3 0 1, SumConstants c 4 4 1 4, SumConstants c 0 0 0 0,
           SumConstants c 0 0 1 0, SumConstants c 1 3 0 0, SumConstants c 1 3 0 1,
           SumConstants c 3 2 2 0] := rfl
    rw [packedDispatches_eq, hdecl]
    simp only [List.map_cons, List.map_nil, ActiveDispatch.dataSize, Constant.size,
      List.sum_cons, List.sum_nil, SumConstants]
    simp only [List.cons.injEq, and_true]
    refine ⟨?_, ?_, ?_, ?_, ?_, ?_, ?_⟩ <;> omega

/-! ### C3 -/

/-- C3. In every frame `UpdateMethod_NrdSpecular` opens the dispatches at
positions 0, 1, ..., 6, ascending and each once, as many as the passes
`AddMethod_NrdSpecular` declares and in their order: the pass declared at
position i (pre-blur, temporal accumulation, mip generation, history fix,
blur, post-blur, temporal stabilization) is opened through the `Dispatch`
enumerator of value i. -/
theorem UpdateMethod_NrdSpecular_opens_passes_in_declared_order {F : Type}
    [OfScientific F] [NatCast F] [Mul F] (c : Env) (self : FrameData F)
    (methodData : MethodData F) (w h : Nat) :
    (packedDispatches c self methodData).map (fun d => d.dispatchIndex) = List.range 7 ∧
    (packedDispatches c self methodData).length = (declaredPasses c w h).length ∧
    List.zip ((declaredPasses c w h).map (fun d => (d.desc.name, d.shader)))
        ((packedDispatches c self methodData).map (fun d => d.dispatchIndex)) =
      [(("Specular - pre-blur", Shader.NRD_Specular_PreBlur), Dispatch.PRE_BLUR.AsUint),
       (("Specular - temporal accumulation", Shader.NRD_Specular_TemporalAccumulation),
         Dispatch.TEMPORAL_ACCUMULATION.AsUint),
       (("Specular - mip generation", Shader.NRD_Specular_Mips),
         Dispatch.MIP_GENERATION.AsUint),
       (("Specular - history fix", Shader.NRD_Specular_HistoryFix),
         Dispatch.HISTORY_FIX.AsUint),
       (("Specular - blur", Shader.NRD_Specular_Blur), Dispatch.BLUR.AsUint),
       (("Specular - post-blur", Shader.NRD_Specular_PostBlur), Dispatch.POST_BLUR.AsUint),
       (("Specular - temporal stabilization", Shader.NRD_Specular_TemporalStabilization),
         Dispatch.TEMPORAL_STABILIZATION.AsUint)] ∧
    [Dispatch.PRE_BLUR, Dispatch.TEMPORAL_ACCUMULATION, Dispatch.MIP_GENERATION,
        Dispatch.HISTORY_FIX, Dispatch.BLUR, Dispatch.POST_BLUR,
        Dispatch.TEMPORAL_STABILIZATION].map Dispatch.AsUint = List.range 7 := by
  rw [packedDispatches_eq]
  exact ⟨rfl, rfl, rfl, rfl⟩

/-! ### C4 -/

/-- C4. With `forceReferenceAccumulation` set, whatever the settings, the
fourth component of the trimming-parameters vector packed for the pre-blur,
blur and post-blur passes (field 4 of each) is 0.0 and the disocclusion
threshold packed for temporal accumulation (field 10) is 0.005; with the flag
clear they are `settings.blurRadius` and `settings.disocclusionThreshold`. -/
theorem UpdateMethod_NrdSpecular_reference_accumulation_fields {F : Type} [OfScientific F]
    [NatCast F] [Mul F] (c : Env) (self : FrameData F) (methodData : MethodData F) :
    (self.m_CommonSettings.forceReferenceAccumulation = true →
      packedConstant (packedDispatches c self methodData) Dispatch.PRE_BLUR 4 =
        some (Constant.float4
          ⟨methodData.settings.specular.lobeTrimmingParameters.A,
            methodData.settings.specular.lobeTrimmingParameters.B,
            methodData.settings.specular.lobeTrimmingParameters.C, (0.0 : F)⟩) ∧
      packedConstant (packedDispatches c self methodData) Dispatch.BLUR 4 =
        some (Constant.float4
          ⟨methodData.settings.specular.lobeTrimmingParameters.A,
            methodData.settings.specular.lobeTrimmingParameters.B,
            methodData.settings.specular.lobeTrimmingParameters.C, (0.0 : F)⟩) ∧
      packedConstant (packedDispatches c self methodData) Dispatch.POST_BLUR 4 =
        some (Constant.float4
          ⟨methodData.settings.specular.lobeTrimmingParameters.A,
            methodData.settings.specular.lobeTrimmingParameters.B,
            methodData.settings.specular.lobeTrimmingParameters.C, (0.0 : F)⟩) ∧
      packedConstant (packedDispatches c self methodData) Dispatch.TEMPORAL_ACCUMULATION 10 =
        some (Constant.float (0.005 : F))) ∧
    (self.m_CommonSettings.forceReferenceAccumulation = false →
      packedConstant (packedDispatches c self methodData) Dispatch.PRE_BLUR 4 =
        some (Constant.float4
          ⟨methodData.settings.specular.lobeTrimmingParameters.A,
            methodData.settings.specular.lobeTrimmingParameters.B,
            methodData.settings.specular.lobeTrimmingParameters.C,
            methodData.settings.specular.blurRadius⟩) ∧
      packedConstant (packedDispatches c self methodData) Dispatch.BLUR 4 =
        some (Constant.float4
          ⟨methodData.settings.specular.lobeTrimmingParameters.A,
            methodData.settings.specular.lobeTrimmingParameters.B,
            methodData.settings.specular.lobeTrimmingParameters.C,
            methodData.settings.specular.blurRadius⟩) ∧
      packedConstant (packedDispatches c self methodData) Dispatch.POST_BLUR 4 =
        some (Constant.float4
          ⟨methodData.settings.specular.lobeTrimmingParameters.A,
            methodData.settings.specular.lobeTrimmingParameters.B,
            methodData.settings.specular.lobeTrimmingParameters.C,
            methodData.settings.specular.blurRadius⟩) ∧
      packedConstant (packedDispatches c self methodData) Dispatch.TEMPORAL_ACCUMULATION 10 =
        some (Constant.float methodData.settings.specular.disocclusionThreshold)) := by
  rw [packedDispatches_eq]
  constructor
  · intro hf
    rw [hf]
    exact ⟨rfl, rfl, rfl, rfl⟩
  · intro hf
    rw [hf]
    exact ⟨rfl, rfl, rfl, rfl⟩

/-- C4 at concrete inputs: with blur radius 30 and disocclusion threshold
1/100 in the settings, the override packs 0 and 5/1000, and without it the
settings' values are packed. -/
theorem UpdateMethod_NrdSpecular_reference_accumulation_fields_witness :
    (packedConstant (packedDispatches env0 (frame0 true) (methodData0 100)) Dispatch.PRE_BLUR 4 =
        some (Constant.float4 ⟨1, 2, 3, (0.0 : ℚ)⟩) ∧
      packedConstant (packedDispatches env0 (frame0 true) (methodData0 100))
          Dispatch.TEMPORAL_ACCUMULATION 10 = some (Constant.float (0.005 : ℚ))) ∧
    (packedConstant (packedDispatches env0 (frame0 false) (methodData0 100))
          Dispatch.PRE_BLUR 4 = some (Constant.float4 ⟨1, 2, 3, (30 : ℚ)⟩) ∧
      packedConstant (packedDispatches env0 (frame0 false) (methodData0 100))
          Dispatch.TEMPORAL_ACCUMULATION 10 = some (Constant.float (1 / 100 : ℚ))) :=
  ⟨⟨((UpdateMethod_NrdSpecular_reference_accumulation_fields env0 (frame0 true)
        (methodData0 100)).1 rfl).1,
      ((UpdateMethod_NrdSpecular_reference_accumulation_fields env0 (frame0 true)
        (methodData0 100)).1 rfl).2.2.2⟩,
    ⟨((UpdateMethod_NrdSpecular_reference_accumulation_fields env0 (frame0 false)
        (methodData0 100)).2 rfl).1,
      ((UpdateMethod_NrdSpecular_reference_accumulation_fields env0 (frame0 false)
        (methodData0 100)).2 rfl).2.2.2⟩⟩

/-! ### C7 -/

/-- C7. The max-accumulated-frame-count scalar packed for temporal
accumulation (field 12) is, without the reference-accumulation override, the
conversion of the integer min(settings.maxAccumulatedFrameNum,
NRD_SPECULAR_MAX_HISTORY_FRAME_NUM); with the override it is 0.0 when the
setting is 0 and the converted NRD_SPECULAR_MAX_HISTORY_FRAME_NUM otherwise.
So, for floats whose conversion from integers is monotone and sends 0 to 0.0,
the packed scalar never exceeds NRD_SPECULAR_MAX_HISTORY_FRAME_NUM. -/
theorem UpdateMethod_NrdSpecular_maxAccumulatedFrameNum_clamped {F : Type} [OfScientific F]
    [NatCast F] [Mul F] [Preorder F] (c : Env) (self : FrameData F)
    (methodData : MethodData F) (hmono : Monotone (Nat.cast : ℕ → F))
    (hzero : (0.0 : F) = ((0 : ℕ) : F)) :
    (self.m_CommonSettings.forceReferenceAccumulation = false →
      packedConstant (packedDispatches c self methodData) Dispatch.TEMPORAL_ACCUMULATION 12 =
        some (Constant.float
          ((min methodData.settings.specular.maxAccumulatedFrameNum
            c.NRD_SPECULAR_MAX_HISTORY_FRAME_NUM : ℕ) : F))) ∧
    (self.m_CommonSettings.forceReferenceAccumulation = true →
      methodData.settings.specular.maxAccumulatedFrameNum = 0 →
      packedConstant (packedDispatches c self methodData) Dispatch.TEMPORAL_ACCUMULATION 12 =
        some (Constant.float (0.0 : F))) ∧
    (self.m_CommonSettings.forceReferenceAccumulation = true →
      methodData.settings.specular.maxAccumulatedFrameNum ≠ 0 →
      packedConstant (packedDispatches c self methodData) Dispatch.TEMPORAL_ACCUMULATION 12 =
        some (Constant.float ((c.NRD_SPECULAR_MAX_HISTORY_FRAME_NUM : ℕ) : F))) ∧
    (∃ x : F,
      packedConstant (packedDispatches c self methodData) Dispatch.TEMPORAL_ACCUMULATION 12 =
        some (Constant.float x) ∧
      x ≤ ((c.NRD_SPECULAR_MAX_HISTORY_FRAME_NUM : ℕ) : F)) := by
  rw [packedDispatches_eq]
  refine ⟨?_, ?_, ?_, ?_⟩
  · intro hf
    rw [hf]
    rfl
  · intro hf h0
    rw [hf, h0]
    rfl
  · intro hf h0
    rw [hf]
    simp only [packedConstant, List.find?, Dispatch.AsUint]
    simp [h0]
  · refine ⟨_, rfl, ?_⟩
    by_cases hf : self.m_CommonSettings.forceReferenceAccumulation = true
    · by_cases h0 : methodData.settings.specular.maxAccumulatedFrameNum = 0
      · rw [if_pos hf, if_pos h0, hzero]
        exact hmono (Nat.zero_le _)
      · rw [if_pos hf, if_neg h0]
    · rw [if_neg hf]
      exact hmono (min_le_right _ _)

/-- C7 at concrete inputs over the rationals: with a maximum of 32, a setting
of 100 is packed as 32 without the override, and the packed scalar is at most
32 with it. -/
theorem UpdateMethod_NrdSpecular_maxAccumulatedFrameNum_clamped_witness :
    (Monotone (Nat.cast : ℕ → ℚ) ∧ (0.0 : ℚ) = ((0 : ℕ) : ℚ)) ∧
    packedConstant (packedDispatches env0 (frame0 false) (methodData0 100))
        Dispatch.TEMPORAL_ACCUMULATION 12 = some (Constant.float (32 : ℚ)) ∧
    (∃ x : ℚ,
      packedConstant (packedDispatches env0 (frame0 true) (methodData0 100))
          Dispatch.TEMPORAL_ACCUMULATION 12 = some (Constant.float x) ∧
      x ≤ 32) :=
  ⟨⟨Nat.mono_cast, by norm_num⟩,
    by
      have h := (UpdateMethod_NrdSpecular_maxAccumulatedFrameNum_clamped env0 (frame0 false)
        (methodData0 100) Nat.mono_cast (by norm_num)).1 rfl
      rw [h]
      norm_num [methodData0, env0],
    by
      have h := (UpdateMethod_NrdSpecular_maxAccumulatedFrameNum_clamped env0 (frame0 true)
        (methodData0 100) Nat.mono_cast (by norm_num)).2.2.2
      norm_num [env0] at h
      exact h⟩

/-! ### Pools -/

/-- From any builder state the method appends four descriptors to the
permanent pool, in the order of its four declarations. -/
theorem AddMethod_NrdSpecular_permanentPool (c : Env) (w h : Nat) (s : DenoiserImpl) :
    ((AddMethod_NrdSpecular c w h).run s).2.m_PermanentPool =
      s.m_PermanentPool ++
        [⟨Format.RG32_UINT, w, h, 1⟩, ⟨Format.RGBA16_SFLOAT, w, h, 1⟩,
         ⟨Format.RGBA16_SFLOAT, w, h, 1⟩, ⟨Format.RGBA16_SFLOAT, w, h, 1⟩] := by
  rw [← foldl_append_singleton]
  rfl

/-- From any builder state the method appends three descriptors to the
transient pool, in the order of its three declarations. -/
theorem AddMethod_NrdSpecular_transientPool (c : Env) (w h : Nat) (s : DenoiserImpl) :
    ((AddMethod_NrdSpecular c w h).run s).2.m_TransientPool =
      s.m_TransientPool ++
        [⟨Format.RGBA8_UNORM, w, h, 1⟩, ⟨Format.RGBA16_SFLOAT, w, h, 5⟩,
         ⟨Format.R16_SFLOAT, w, h, 5⟩] := by
  rw [← foldl_append_singleton]
  rfl

/-- An entry of a list is still at its index after an append. -/
theorem getElem?_append_of_eq_some {α : Type} (l l' : List α) (i : Nat) (a : α)
    (hi : l[i]? = some a) : (l ++ l')[i]? = some a := by
  have hlt : i < l.length := by
    by_contra hge
    rw [List.getElem?_eq_none (Nat.le_of_not_lt hge)] at hi
    cases hi
  rw [List.getElem?_append_left hlt]
  exact hi

/-! ### C8 -/

/-- C8. `AddMethod_NrdSpecular` only appends to the pools: from every prior
state, a descriptor of the permanent or transient pool is afterwards at the
same index with the same value; the permanent pool has grown by exactly four
slots, one for each declaration in order, so the three identical
RGBA16_SFLOAT w x h one-mip declarations hold the three distinct slots
n + 1, n + 2 and n + 3 after the n prior ones. -/
theorem AddMethod_NrdSpecular_appends_to_pools (c : Env) (w h : Nat) (s : DenoiserImpl) :
    (∀ (i : Nat) (t : TextureDesc), s.m_PermanentPool[i]? = some t →
      ((AddMethod_NrdSpecular c w h).run s).2.m_PermanentPool[i]? = some t) ∧
    (∀ (i : Nat) (t : TextureDesc), s.m_TransientPool[i]? = some t →
      ((AddMethod_NrdSpecular c w h).run s).2.m_TransientPool[i]? = some t) ∧
    ((AddMethod_NrdSpecular c w h).run s).2.m_PermanentPool.length =
      s.m_PermanentPool.length + 4 ∧
    ((AddMethod_NrdSpecular c w h).run s).2.m_PermanentPool[s.m_PermanentPool.length]? =
      some ⟨Format.RG32_UINT, w, h, 1⟩ ∧
    ((AddMethod_NrdSpecular c w h).run s).2.m_PermanentPool[s.m_PermanentPool.length + 1]? =
      some ⟨Format.RGBA16_SFLOAT, w, h, 1⟩ ∧
    ((AddMethod_NrdSpecular c w h).run s).2.m_PermanentPool[s.m_PermanentPool.length + 2]? =
      some ⟨Format.RGBA16_SFLOAT, w, h, 1⟩ ∧
    ((AddMethod_NrdSpecular c w h).run s).2.m_PermanentPool[s.m_PermanentPool.length + 3]? =
      some ⟨Format.RGBA16_SFLOAT, w, h, 1⟩ := by
  rw [AddMethod_NrdSpecular_permanentPool, AddMethod_NrdSpecular_transientPool]
  refine ⟨?_, ?_, ?_, ?_, ?_, ?_, ?_⟩
  · intro i t hi
    exact getElem?_append_of_eq_some _ _ i t hi
  · intro i t hi
    exact getElem?_append_of_eq_some _ _ i t hi
  · simp
  · rw [List.getElem?_append_right (Nat.le_refl _)]
    simp
  · rw [List.getElem?_append_right (Nat.le_add_right _ _)]
    simp
  · rw [List.getElem?_append_right (Nat.le_add_right _ _)]
    simp
  · rw [List.getElem?_append_right (Nat.le_add_right _ _)]
    simp

/-! ### C9 -/

/-- C9 as stated fails: built twice at the same resolution on an empty
builder, the method leaves six descriptors in the transient pool, not
three; the second RGBA8_UNORM declaration is a new slot 3, equal to slot 0. -/
theorem AddMethod_NrdSpecular_twice_transientPool_not_three :
    ((AddMethod_NrdSpecular env0 1920 1080).run
        ((AddMethod_NrdSpecular env0 1920 1080).run {}).2).2.m_TransientPool.length = 6 ∧
    ¬ ((AddMethod_NrdSpecular env0 1920 1080).run
        ((AddMethod_NrdSpecular env0 1920 1080).run {}).2).2.m_TransientPool.length = 3 ∧
    ((AddMethod_NrdSpecular env0 1920 1080).run
        ((AddMethod_NrdSpecular env0 1920 1080).run {}).2).2.m_TransientPool[3]? =
      some ⟨Format.RGBA8_UNORM, 1920, 1080, 1⟩ ∧
    ((AddMethod_NrdSpecular env0 1920 1080).run
        ((AddMethod_NrdSpecular env0 1920 1080).run {}).2).2.m_TransientPool[0]? =
      some ⟨Format.RGBA8_UNORM, 1920, 1080, 1⟩ := by
  rw [AddMethod_NrdSpecular_transientPool, AddMethod_NrdSpecular_transientPool]
  exact ⟨rfl, by decide, rfl, rfl⟩

/-- C9, amended. A transient-pool declaration always adds a slot, as a
permanent-pool declaration does: from every prior state, building the method
a second time at the same resolution appends the same three descriptors to
the transient pool again (six added in all) and the same four to the
permanent pool again (eight added in all). -/
theorem AddMethod_NrdSpecular_twice_appends_again (c : Env) (w h : Nat) (s : DenoiserImpl) :
    ((AddMethod_NrdSpecular c w h).run ((AddMethod_NrdSpecular c w h).run s).2).2.m_TransientPool =
      s.m_TransientPool ++
        [⟨Format.RGBA8_UNORM, w, h, 1⟩, ⟨Format.RGBA16_SFLOAT, w, h, 5⟩,
         ⟨Format.R16_SFLOAT, w, h, 5⟩, ⟨Format.RGBA8_UNORM, w, h, 1⟩,
         ⟨Format.RGBA16_SFLOAT, w, h, 5⟩, ⟨Format.R16_SFLOAT, w, h, 5⟩] ∧
    ((AddMethod_NrdSpecular c w h).run ((AddMethod_NrdSpecular c w h).run s).2).2.m_TransientPool.length =
      s.m_TransientPool.length + 6 ∧
    ((AddMethod_NrdSpecular c w h).run ((AddMethod_NrdSpecular c w h).run s).2).2.m_PermanentPool =
      s.m_PermanentPool ++
        [⟨Format.RG32_UINT, w, h, 1⟩, ⟨Format.RGBA16_SFLOAT, w, h, 1⟩,
         ⟨Format.RGBA16_SFLOAT, w, h, 1⟩, ⟨Format.RGBA16_SFLOAT, w, h, 1⟩,
         ⟨Format.RG32_UINT, w, h, 1⟩, ⟨Format.RGBA16_SFLOAT, w, h, 1⟩,
         ⟨Format.RGBA16_SFLOAT, w, h, 1⟩, ⟨Format.RGBA16_SFLOAT, w, h, 1⟩] ∧
    ((AddMethod_NrdSpecular c w h).run ((AddMethod_NrdSpecular c w h).run s).2).2.m_PermanentPool.length =
      s.m_PermanentPool.length + 8 := by
  rw [AddMethod_NrdSpecular_transientPool, AddMethod_NrdSpecular_transientPool,
    AddMethod_NrdSpecular_permanentPool, AddMethod_NrdSpecular_permanentPool]
  simp

/-! ### C10 -/

/-- C10. In each of the seven declared passes every input comes before every
output: the resource list is a run of read-only texture references followed
by a run of storage-texture references, of lengths (3,2), (6,2), (2,8),
(4,1), (4,1), (5,1), (6,3) in pass order; the pass has exactly two descriptor
ranges, a texture range and a storage-texture range, whose descriptor counts
are these run lengths, and they sum to the pass's resource count. -/
theorem AddMethod_NrdSpecular_inputs_before_outputs (c : Env) (w h : Nat) :
    (declaredPasses c w h).map (fun d => d.desc.resources.map (fun r => r.stateNeeded)) =
      [List.replicate 3 DescriptorType.TEXTURE ++ List.replicate 2 DescriptorType.STORAGE_TEXTURE,
       List.replicate 6 DescriptorType.TEXTURE ++ List.replicate 2 DescriptorType.STORAGE_TEXTURE,
       List.replicate 2 DescriptorType.TEXTURE ++ List.replicate 8 DescriptorType.STORAGE_TEXTURE,
       List.replicate 4 DescriptorType.TEXTURE ++ List.replicate 1 DescriptorType.STORAGE_TEXTURE,
       List.replicate 4 DescriptorType.TEXTURE ++ List.replicate 1 DescriptorType.STORAGE_TEXTURE,
       List.replicate 5 DescriptorType.TEXTURE ++ List.replicate 1 DescriptorType.STORAGE_TEXTURE,
       List.replicate 6 DescriptorType.TEXTURE ++ List.replicate 3 DescriptorType.STORAGE_TEXTURE] ∧
    (declaredPasses c w h).map
        (fun d => d.descriptorRanges.map (fun r => (r.descriptorType, r.descriptorNum))) =
      [[(DescriptorType.TEXTURE, 3), (DescriptorType.STORAGE_TEXTURE, 2)],
       [(DescriptorType.TEXTURE, 6), (DescriptorType.STORAGE_TEXTURE, 2)],
       [(DescriptorType.TEXTURE, 2), (DescriptorType.STORAGE_TEXTURE, 8)],
       [(DescriptorType.TEXTURE, 4), (DescriptorType.STORAGE_TEXTURE, 1)],
       [(DescriptorType.TEXTURE, 4), (DescriptorType.STORAGE_TEXTURE, 1)],
       [(DescriptorType.TEXTURE, 5), (DescriptorType.STORAGE_TEXTURE, 1)],
       [(DescriptorType.TEXTURE, 6), (DescriptorType.STORAGE_TEXTURE, 3)]] ∧
    (declaredPasses c w h).map (fun d => (d.desc.resourceNum, d.desc.resources.length)) =
      [(3 + 2, 5), (6 + 2, 8), (2 + 8, 10), (4 + 1, 5), (4 + 1, 5), (5 + 1, 6), (6 + 3, 9)] := by
  exact ⟨rfl, rfl, rfl⟩

/-! ### C2 -/

/-- C2. For every resolution, every input or output reference the method
declares into the permanent or the transient pool has its mip sub-range
inside the descriptor the method declared for that slot, mipOffset + mipNum
<= mipNum, and so has the slot a ping-pong reference alternates with. In
particular ACCUMULATED and SCALED_VIEWZ are declared with 5 mips, the
mip-generation outputs are their mips 1 to 4, one each, and the history-fix
pass reads mips 1..4 of ACCUMULATED and mips 0..4 of SCALED_VIEWZ. -/
theorem AddMethod_NrdSpecular_mip_ranges_in_bounds (c : Env) (hc : c.WellFormed)
    (w h : Nat) :
    (∀ d ∈ declaredPasses c w h, ∀ r ∈ d.desc.resources,
      (r.type = ResourceType.PERMANENT_POOL ∨ r.type = ResourceType.TRANSIENT_POOL) →
      ∃ t, declaredTexture c w h r.type r.indexInPool = some t ∧
        r.mipOffset + r.mipNum ≤ t.mipNum) ∧
    (∀ d ∈ declaredPasses c w h, ∀ p ∈ d.pingPongs,
      ∃ r t, d.desc.resources[p.resourceIndex]? = some r ∧
        declaredTexture c w h r.type p.indexInPoolToSwapWith = some t ∧
        r.mipOffset + r.mipNum ≤ t.mipNum) ∧
    declaredTexture c w h ResourceType.TRANSIENT_POOL Transient.ACCUMULATED.slot =
      some ⟨Format.RGBA16_SFLOAT, w, h, 5⟩ ∧
    declaredTexture c w h ResourceType.TRANSIENT_POOL Transient.SCALED_VIEWZ.slot =
      some ⟨Format.R16_SFLOAT, w, h, 5⟩ ∧
    ((declaredPasses c w h).map
        (fun d => (d.desc.resources.filter
          (fun r => r.stateNeeded == DescriptorType.STORAGE_TEXTURE)).map
            (fun r => (r.type, r.indexInPool, r.mipOffset, r.mipNum))))[2]? =
      some
        [(ResourceType.TRANSIENT_POOL, Transient.ACCUMULATED.slot, 1, 1),
         (ResourceType.TRANSIENT_POOL, Transient.SCALED_VIEWZ.slot, 1, 1),
         (ResourceType.TRANSIENT_POOL, Transient.ACCUMULATED.slot, 2, 1),
         (ResourceType.TRANSIENT_POOL, Transient.SCALED_VIEWZ.slot, 2, 1),
         (ResourceType.TRANSIENT_POOL, Transient.ACCUMULATED.slot, 3, 1),
         (ResourceType.TRANSIENT_POOL, Transient.SCALED_VIEWZ.slot, 3, 1),
         (ResourceType.TRANSIENT_POOL, Transient.ACCUMULATED.slot, 4, 1),
         (ResourceType.TRANSIENT_POOL, Transient.SCALED_VIEWZ.slot, 4, 1)] ∧
    ((declaredPasses c w h).map
        (fun d => (d.desc.resources.filter
          (fun r => r.stateNeeded == DescriptorType.TEXTURE && 1 < r.mipNum)).map
            (fun r => (r.type, r.indexInPool, r.mipOffset, r.mipNum))))[3]? =
      some
        [(ResourceType.TRANSIENT_POOL, Transient.ACCUMULATED.slot, 1, 4),
         (ResourceType.TRANSIENT_POOL, Transient.SCALED_VIEWZ.slot, 0, 5)] := by
  have hrefs := declaredPasses_references hc w h
  obtain ⟨hi1, hi2, ho1, ho2⟩ := hc.spec_hit_not_pool
  have key : ∀ x ∈ (declaredPasses c w h).map (fun d => (d.desc.resources, d.pingPongs)),
      (∀ r ∈ x.1,
        (r.type = ResourceType.PERMANENT_POOL ∨ r.type = ResourceType.TRANSIENT_POOL) →
        ∃ t, declaredTexture c w h r.type r.indexInPool = some t ∧
          r.mipOffset + r.mipNum ≤ t.mipNum) ∧
      (∀ p ∈ x.2,
        ∃ r t, x.1[p.resourceIndex]? = some r ∧
          declaredTexture c w h r.type p.indexInPoolToSwapWith = some t ∧
          r.mipOffset + r.mipNum ≤ t.mipNum) := by
    rw [hrefs]
    simp [declaredTexture, builtAlone_permanentPool, builtAlone_transientPool, hi1, hi2,
      ho1, ho2]
  refine ⟨?_, ?_, rfl, rfl, ?_, ?_⟩
  · intro d hd r hr hpool
    exact (key _ (List.mem_map_of_mem _ hd)).1 r hr hpool
  · intro d hd p hp
    exact (key _ (List.mem_map_of_mem _ hd)).2 p hp
  · have e :
        (declaredPasses c w h).map
            (fun d => (d.desc.resources.filter
              (fun r => r.stateNeeded == DescriptorType.STORAGE_TEXTURE)).map
                (fun r => (r.type, r.indexInPool, r.mipOffset, r.mipNum))) =
          ((declaredPasses c w h).map (fun d => (d.desc.resources, d.pingPongs))).map
            (fun x => (x.1.filter
              (fun r => r.stateNeeded == DescriptorType.STORAGE_TEXTURE)).map
                (fun r => (r.type, r.indexInPool, r.mipOffset, r.mipNum))) := by
      rw [List.map_map]; rfl
    rw [e, hrefs]
    rfl
  · have e :
        (declaredPasses c w h).map
            (fun d => (d.desc.resources.filter
              (fun r => r.stateNeeded == DescriptorType.TEXTURE && 1 < r.mipNum)).map
                (fun r => (r.type, r.indexInPool, r.mipOffset, r.mipNum))) =
          ((declaredPasses c w h).map (fun d => (d.desc.resources, d.pingPongs))).map
            (fun x => (x.1.filter
              (fun r => r.stateNeeded == DescriptorType.TEXTURE && 1 < r.mipNum)).map
                (fun r => (r.type, r.indexInPool, r.mipOffset, r.mipNum))) := by
      rw [List.map_map]; rfl
    rw [e, hrefs]
    rfl

/-- C2 at a concrete input: pools starting at 1000 and 2000, 1920 by 1080. -/
theorem AddMethod_NrdSpecular_mip_ranges_in_bounds_witness :
    env0.WellFormed ∧
    (∀ d ∈ declaredPasses env0 1920 1080, ∀ r ∈ d.desc.resources,
      (r.type = ResourceType.PERMANENT_POOL ∨ r.type = ResourceType.TRANSIENT_POOL) →
      ∃ t, declaredTexture env0 1920 1080 r.type r.indexInPool = some t ∧
        r.mipOffset + r.mipNum ≤ t.mipNum) ∧
    (∀ d ∈ declaredPasses env0 1920 1080, ∀ p ∈ d.pingPongs,
      ∃ r t, d.desc.resources[p.resourceIndex]? = some r ∧
        declaredTexture env0 1920 1080 r.type p.indexInPoolToSwapWith = some t ∧
        r.mipOffset + r.mipNum ≤ t.mipNum) :=
  ⟨by decide,
    (AddMethod_NrdSpecular_mip_ranges_in_bounds env0 (by decide) 1920 1080).1,
    (AddMethod_NrdSpecular_mip_ranges_in_bounds env0 (by decide) 1920 1080).2.1⟩

/-! ### C6 -/

/-- The rounded-up quotient is the ceiling of the exact quotient. -/
theorem DivideUp_eq_ceil (x y : Nat) (hy : 0 < y) : DivideUp x y = ⌈(x : ℚ) / (y : ℚ)⌉₊ := by
  unfold DivideUp
  have hyq : (0 : ℚ) < (y : ℚ) := by exact_mod_cast hy
  apply le_antisymm
  · have hle : (x : ℚ) / (y : ℚ) ≤ (⌈(x : ℚ) / (y : ℚ)⌉₊ : ℚ) := Nat.le_ceil _
    rw [div_le_iff₀ hyq] at hle
    have hle' : x ≤ ⌈(x : ℚ) / (y : ℚ)⌉₊ * y := by exact_mod_cast hle
    apply Nat.le_of_lt_succ
    rw [Nat.div_lt_iff_lt_mul hy, Nat.succ_mul]
    omega
  · rw [Nat.ceil_le, div_le_iff₀ hyq]
    have h1 : x ≤ (x + y - 1) / y * y := by
      have hmod := Nat.div_add_mod (x + y - 1) y
      have hlt := Nat.mod_lt (x + y - 1) hy
      have hcomm : y * ((x + y - 1) / y) = (x + y - 1) / y * y := Nat.mul_comm _ _
      omega
    exact_mod_cast h1

/-- C6. The mip-generation pass is dispatched over the half resolution
rounded up, with a 16 by 16 tile: for every 16-bit w > 0 its grid width is
g = DivideUp(DivideUp(w, 2), 16), stored without wrap-around, with
16 * (g - 1) < ceil(w / 2) <= 16 * g and g = ceil(w / 32), and likewise for
the height; the other six passes are dispatched over the full w by h, rounded
up to the default tile. -/
theorem AddMethod_NrdSpecular_mip_generation_grid (c : Env) (w h : Nat) (hw0 : 0 < w)
    (hw : w < 2 ^ 16) (hh0 : 0 < h) (hh : h < 2 ^ 16) :
    (declaredPasses c w h).map (fun d => (d.desc.gridWidth, d.desc.gridHeight)) =
      [(DivideUp w c.ctaWidth % 2 ^ 16, DivideUp h c.ctaHeight % 2 ^ 16),
       (DivideUp w c.ctaWidth % 2 ^ 16, DivideUp h c.ctaHeight % 2 ^ 16),
       (DivideUp (DivideUp w 2) 16, DivideUp (DivideUp h 2) 16),
       (DivideUp w c.ctaWidth % 2 ^ 16, DivideUp h c.ctaHeight % 2 ^ 16),
       (DivideUp w c.ctaWidth % 2 ^ 16, DivideUp h c.ctaHeight % 2 ^ 16),
       (DivideUp w c.ctaWidth % 2 ^ 16, DivideUp h c.ctaHeight % 2 ^ 16),
       (DivideUp w c.ctaWidth % 2 ^ 16, DivideUp h c.ctaHeight % 2 ^ 16)] ∧
    (16 * (DivideUp (DivideUp w 2) 16 - 1) < ⌈(w : ℚ) / 2⌉₊ ∧
      ⌈(w : ℚ) / 2⌉₊ ≤ 16 * DivideUp (DivideUp w 2) 16 ∧
      DivideUp (DivideUp w 2) 16 = ⌈(w : ℚ) / 32⌉₊) ∧
    (16 * (DivideUp (DivideUp h 2) 16 - 1) < ⌈(h : ℚ) / 2⌉₊ ∧
      ⌈(h : ℚ) / 2⌉₊ ≤ 16 * DivideUp (DivideUp h 2) 16 ∧
      DivideUp (DivideUp h 2) 16 = ⌈(h : ℚ) / 32⌉₊) := by
  have hgrid :
      (declaredPasses c w h).map (fun d => (d.desc.gridWidth, d.desc.gridHeight)) =
        [(DivideUp w c.ctaWidth % 2 ^ 16, DivideUp h c.ctaHeight % 2 ^ 16),
         (DivideUp w c.ctaWidth % 2 ^ 16, DivideUp h c.ctaHeight % 2 ^ 16),
         (DivideUp (DivideUp w 2) 16 % 2 ^ 16, DivideUp (DivideUp h 2) 16 % 2 ^ 16),
         (DivideUp w c.ctaWidth % 2 ^ 16, DivideUp h c.ctaHeight % 2 ^ 16),
         (DivideUp w c.ctaWidth % 2 ^ 16, DivideUp h c.ctaHeight % 2 ^ 16),
         (DivideUp w c.ctaWidth % 2 ^ 16, DivideUp h c.ctaHeight % 2 ^ 16),
         (DivideUp w c.ctaWidth % 2 ^ 16, DivideUp h c.ctaHeight % 2 ^ 16)] := rfl
  have hw2 := DivideUp_eq_ceil w 2 (by decide)
  have hw32 := DivideUp_eq_ceil w 32 (by decide)
  have hh2 := DivideUp_eq_ceil h 2 (by decide)
  have hh32 := DivideUp_eq_ceil h 32 (by decide)
  simp only [Nat.cast_ofNat] at hw2 hw32 hh2 hh32
  rw [← hw2, ← hw32, ← hh2, ← hh32, hgrid]
  have hwm : DivideUp (DivideUp w 2) 16 % 2 ^ 16 = DivideUp (DivideUp w 2) 16 := by
    apply Nat.mod_eq_of_lt
    unfold DivideUp
    omega
  have hhm : DivideUp (DivideUp h 2) 16 % 2 ^ 16 = DivideUp (DivideUp h 2) 16 := by
    apply Nat.mod_eq_of_lt
    unfold DivideUp
    omega
  rw [hwm, hhm]
  refine ⟨rfl, ⟨?_, ?_, ?_⟩, ⟨?_, ?_, ?_⟩⟩ <;> unfold DivideUp <;> omega

/-- C6 at a concrete input: at 1920 by 1080 the mip-generation grid is 60 by
34, the ceilings of 1920 / 32 and 1080 / 32. -/
theorem AddMethod_NrdSpecular_mip_generation_grid_witness :
    ((0 < 1920 ∧ 1920 < 2 ^ 16) ∧ (0 < 1080 ∧ 1080 < 2 ^ 16)) ∧
    ((declaredPasses env0 1920 1080).map (fun d => (d.desc.gridWidth, d.desc.gridHeight)))[2]? =
      some (60, 34) ∧
    (60 = ⌈((1920 : ℕ) : ℚ) / 32⌉₊ ∧ 34 = ⌈((1080 : ℕ) : ℚ) / 32⌉₊) := by
  have h := AddMethod_NrdSpecular_mip_generation_grid env0 1920 1080 (by decide) (by decide)
    (by decide) (by decide)
  refine ⟨by decide, ?_, ?_, ?_⟩
  · rw [h.1]; rfl
  · rw [← h.2.1.2.2]; rfl
  · rw [← h.2.2.2.2]; rfl

/-! ### References by pool, state and frame -/

/-- The references each declared pass makes into the permanent pool on a
frame, inputs and outputs: a ping-pong reference names slot 2 or 3 by the
frame. -/
theorem declaredPasses_permanent_refs {c : Env} (hc : c.WellFormed) (w h : Nat)
    (swapped : Bool) :
    (declaredPasses c w h).map (fun d => d.permanentRefs swapped) =
      [([],
        [⟨DescriptorType.STORAGE_TEXTURE, ResourceType.PERMANENT_POOL, cond swapped 3 2, 0, 1⟩]),
       ([⟨DescriptorType.TEXTURE, ResourceType.PERMANENT_POOL, 1, 0, 1⟩,
         ⟨DescriptorType.TEXTURE, ResourceType.PERMANENT_POOL, cond swapped 3 2, 0, 1⟩,
         ⟨DescriptorType.TEXTURE, ResourceType.PERMANENT_POOL, 0, 0, 1⟩],
        []),
       ([], []),
       ([], []),
       ([],
        [⟨DescriptorType.STORAGE_TEXTURE, ResourceType.PERMANENT_POOL, cond swapped 3 2, 0, 1⟩]),
       ([⟨DescriptorType.TEXTURE, ResourceType.PERMANENT_POOL, cond swapped 3 2, 0, 1⟩],
        [⟨DescriptorType.STORAGE_TEXTURE, ResourceType.PERMANENT_POOL, 1, 0, 1⟩]),
       ([⟨DescriptorType.TEXTURE, ResourceType.PERMANENT_POOL, cond swapped 2 3, 0, 1⟩,
         ⟨DescriptorType.TEXTURE, ResourceType.PERMANENT_POOL, 1, 0, 1⟩],
        [⟨DescriptorType.STORAGE_TEXTURE, ResourceType.PERMANENT_POOL, 0, 0, 1⟩,
         ⟨DescriptorType.STORAGE_TEXTURE, ResourceType.PERMANENT_POOL, cond swapped 3 2, 0,
           1⟩])] := by
  obtain ⟨hi1, hi2, ho1, ho2⟩ := hc.spec_hit_not_pool
  have e :
      (declaredPasses c w h).map (fun d => d.permanentRefs swapped) =
        ((declaredPasses c w h).map (fun d => (d.desc.resources, d.pingPongs))).map
          (fun x =>
            (refsOf DescriptorType.TEXTURE ResourceType.PERMANENT_POOL
                (resolveResources x.1 x.2 swapped),
              refsOf DescriptorType.STORAGE_TEXTURE ResourceType.PERMANENT_POOL
                (resolveResources x.1 x.2 swapped))) := by
    rw [List.map_map]; rfl
  rw [e, declaredPasses_references hc]
  cases swapped <;>
    simp [resolveResources, refsOf, List.enum, List.enumFrom, hi1, hi2, ho1, ho2]

/-- The references each declared pass makes into the transient pool, inputs
and outputs; they are the same on every frame. -/
theorem declaredPasses_transient_refs {c : Env} (hc : c.WellFormed) (w h : Nat)
    (swapped : Bool) :
    (declaredPasses c w h).map (fun d => d.transientRefs swapped) =
      [([],
        [⟨DescriptorType.STORAGE_TEXTURE, ResourceType.TRANSIENT_POOL, 2, 0, 1⟩]),
       ([],
        [⟨DescriptorType.STORAGE_TEXTURE, ResourceType.TRANSIENT_POOL, 1, 0, 1⟩,
         ⟨DescriptorType.STORAGE_TEXTURE, ResourceType.TRANSIENT_POOL, 0, 0, 1⟩]),
       ([⟨DescriptorType.TEXTURE, ResourceType.TRANSIENT_POOL, 1, 0, 1⟩,
         ⟨DescriptorType.TEXTURE, ResourceType.TRANSIENT_POOL, 2, 0, 1⟩],
        [⟨DescriptorType.STORAGE_TEXTURE, ResourceType.TRANSIENT_POOL, 1, 1, 1⟩,
         ⟨DescriptorType.STORAGE_TEXTURE, ResourceType.TRANSIENT_POOL, 2, 1, 1⟩,
         ⟨DescriptorType.STORAGE_TEXTURE, ResourceType.TRANSIENT_POOL, 1, 2, 1⟩,
         ⟨DescriptorType.STORAGE_TEXTURE, ResourceType.TRANSIENT_POOL, 2, 2, 1⟩,
         ⟨DescriptorType.STORAGE_TEXTURE, ResourceType.TRANSIENT_POOL, 1, 3, 1⟩,
         ⟨DescriptorType.STORAGE_TEXTURE, ResourceType.TRANSIENT_POOL, 2, 3, 1⟩,
         ⟨DescriptorType.STORAGE_TEXTURE, ResourceType.TRANSIENT_POOL, 1, 4, 1⟩,
         ⟨DescriptorType.STORAGE_TEXTURE, ResourceType.TRANSIENT_POOL, 2, 4, 1⟩]),
       ([⟨DescriptorType.TEXTURE, ResourceType.TRANSIENT_POOL, 0, 0, 1⟩,
         ⟨DescriptorType.TEXTURE, ResourceType.TRANSIENT_POOL, 1, 1, 4⟩,
         ⟨DescriptorType.TEXTURE, ResourceType.TRANSIENT_POOL, 2, 0, 5⟩],
        [⟨DescriptorType.STORAGE_TEXTURE, ResourceType.TRANSIENT_POOL, 1, 0, 1⟩]),
       ([⟨DescriptorType.TEXTURE, ResourceType.TRANSIENT_POOL, 0, 0, 1⟩,
         ⟨DescriptorType.TEXTURE, ResourceType.TRANSIENT_POOL, 1, 0, 1⟩,
         ⟨DescriptorType.TEXTURE, ResourceType.TRANSIENT_POOL, 2, 0, 1⟩],
        []),
       ([⟨DescriptorType.TEXTURE, ResourceType.TRANSIENT_POOL, 0, 0, 1⟩,
         ⟨DescriptorType.TEXTURE, ResourceType.TRANSIENT_POOL, 2, 0, 1⟩,
         ⟨DescriptorType.TEXTURE, ResourceType.TRANSIENT_POOL, 1, 0, 1⟩],
        []),
       ([⟨DescriptorType.TEXTURE, ResourceType.TRANSIENT_POOL, 0, 0, 1⟩],
        [])] := by
  obtain ⟨hi1, hi2, ho1, ho2⟩ := hc.spec_hit_not_pool
  have e :
      (declaredPasses c w h).map (fun d => d.transientRefs swapped) =
        ((declaredPasses c w h).map (fun d => (d.desc.resources, d.pingPongs))).map
          (fun x =>
            (refsOf DescriptorType.TEXTURE ResourceType.TRANSIENT_POOL
                (resolveResources x.1 x.2 swapped),
              refsOf DescriptorType.STORAGE_TEXTURE ResourceType.TRANSIENT_POOL
                (resolveResources x.1 x.2 swapped))) := by
    rw [List.map_map]; rfl
  rw [e, declaredPasses_references hc]
  cases swapped <;>
    simp [resolveResources, refsOf, List.enum, List.enumFrom, hi1, hi2, ho1, ho2]

/-- The entry of a mapped list at a position is the image of the entry. -/
theorem getElem?_of_map_eq {α β : Type} {l : List α} {f : α → β} {e : List β}
    (h : l.map f = e) (i : Nat) (a : α) (ha : l[i]? = some a) : e[i]? = some (f a) := by
  rw [← h, List.getElem?_map, ha]
  rfl

/-- A reference is among `refsOf` exactly when it has the state and type. -/
theorem mem_refsOf (stateNeeded : DescriptorType) (type : ResourceType) (rs : List Resource)
    (r : Resource) :
    r ∈ refsOf stateNeeded type rs ↔ r ∈ rs ∧ r.stateNeeded = stateNeeded ∧ r.type = type := by
  simp [refsOf, List.mem_filter]

/-- The method declares seven passes. -/
theorem declaredPasses_length (c : Env) (w h : Nat) : (declaredPasses c w h).length = 7 := rfl

/-- Consecutive frames have opposite ping-pong parity. -/
theorem frameSwapped_succ (frame : Nat) : frameSwapped (frame + 1) = !frameSwapped frame := by
  unfold frameSwapped
  rcases Nat.mod_two_eq_zero_or_one frame with h0 | h1
  · have : (frame + 1) % 2 = 1 := by omega
    rw [this, h0]; rfl
  · have : (frame + 1) % 2 = 0 := by omega
    rw [this, h1]; rfl

/-- The method adds four descriptors to the permanent pool. -/
theorem addedToPermanentPool_eq (c : Env) (w h : Nat) (s : DenoiserImpl) :
    addedToPermanentPool c w h s = 4 := by
  unfold addedToPermanentPool
  rw [AddMethod_NrdSpecular_permanentPool]
  simp

/-- The method adds three descriptors to the transient pool. -/
theorem addedToTransientPool_eq (c : Env) (w h : Nat) (s : DenoiserImpl) :
    addedToTransientPool c w h s = 3 := by
  unfold addedToTransientPool
  rw [AddMethod_NrdSpecular_transientPool]
  simp

/-! ### C11 -/

/-- C11. The `Permanent` enumerators are PERMANENT_POOL_START + 0..3 and the
`Transient` ones TRANSIENT_POOL_START + 0..2, in the order of the four and
three descriptors pushed, each naming the descriptor at its own offset. So,
whatever the builder held before, the pool-local index of every pool
reference of the method, and the alternate slot of every ping-pong
reference, is below the number of descriptors the method added to that pool;
and among the transient slots exactly ACCUMULATED and SCALED_VIEWZ are the
5-mip textures. -/
theorem AddMethod_NrdSpecular_references_name_declared_slots (c : Env) (hc : c.WellFormed)
    (w h : Nat) (s : DenoiserImpl) :
    [Permanent.PREV_VIEWZ_NORMAL_ROUGHNESS_ACCUMSPEEDS, Permanent.HISTORY,
        Permanent.STABILIZED_HISTORY_1, Permanent.STABILIZED_HISTORY_2].map
        (Permanent.AsUint c) =
      [c.PERMANENT_POOL_START + 0, c.PERMANENT_POOL_START + 1, c.PERMANENT_POOL_START + 2,
       c.PERMANENT_POOL_START + 3] ∧
    [Transient.INTERNAL_DATA, Transient.ACCUMULATED, Transient.SCALED_VIEWZ].map
        (Transient.AsUint c) =
      [c.TRANSIENT_POOL_START + 0, c.TRANSIENT_POOL_START + 1, c.TRANSIENT_POOL_START + 2] ∧
    (∀ p : Permanent,
      poolLocalIndex c (p.AsUint c) = p.AsUint c - c.PERMANENT_POOL_START ∧
      poolLocalIndex c (p.AsUint c) < addedToPermanentPool c w h s ∧
      ((AddMethod_NrdSpecular c w h).run s).2.m_PermanentPool[
          s.m_PermanentPool.length + poolLocalIndex c (p.AsUint c)]? =
        declaredTexture c w h ResourceType.PERMANENT_POOL (poolLocalIndex c (p.AsUint c)) ∧
      ∃ t, declaredTexture c w h ResourceType.PERMANENT_POOL (poolLocalIndex c (p.AsUint c)) =
        some t ∧ t.mipNum = 1) ∧
    (∀ p : Transient,
      poolLocalIndex c (p.AsUint c) = p.AsUint c - c.TRANSIENT_POOL_START ∧
      poolLocalIndex c (p.AsUint c) < addedToTransientPool c w h s ∧
      ((AddMethod_NrdSpecular c w h).run s).2.m_TransientPool[
          s.m_TransientPool.length + poolLocalIndex c (p.AsUint c)]? =
        declaredTexture c w h ResourceType.TRANSIENT_POOL (poolLocalIndex c (p.AsUint c)) ∧
      ∃ t, declaredTexture c w h ResourceType.TRANSIENT_POOL (poolLocalIndex c (p.AsUint c)) =
        some t ∧
        (t.mipNum = 5 ↔ p = Transient.ACCUMULATED ∨ p = Transient.SCALED_VIEWZ)) ∧
    (∀ d ∈ declaredPasses c w h, ∀ r ∈ d.desc.resources,
      (r.type = ResourceType.PERMANENT_POOL → r.indexInPool < addedToPermanentPool c w h s) ∧
      (r.type = ResourceType.TRANSIENT_POOL → r.indexInPool < addedToTransientPool c w h s)) ∧
    (∀ d ∈ declaredPasses c w h, ∀ p ∈ d.pingPongs,
      ∃ r, d.desc.resources[p.resourceIndex]? = some r ∧
        r.type = ResourceType.PERMANENT_POOL ∧
        p.indexInPoolToSwapWith < addedToPermanentPool c w h s) := by
  rw [addedToPermanentPool_eq, addedToTransientPool_eq, AddMethod_NrdSpecular_permanentPool,
    AddMethod_NrdSpecular_transientPool]
  obtain ⟨hi1, hi2, ho1, ho2⟩ := hc.spec_hit_not_pool
  have key : ∀ x ∈ (declaredPasses c w h).map (fun d => (d.desc.resources, d.pingPongs)),
      (∀ r ∈ x.1,
        (r.type = ResourceType.PERMANENT_POOL → r.indexInPool < 4) ∧
        (r.type = ResourceType.TRANSIENT_POOL → r.indexInPool < 3)) ∧
      (∀ p ∈ x.2,
        ∃ r, x.1[p.resourceIndex]? = some r ∧ r.type = ResourceType.PERMANENT_POOL ∧
          p.indexInPoolToSwapWith < 4) := by
    rw [declaredPasses_references hc]
    simp [hi1, hi2, ho1, ho2]
  refine ⟨rfl, rfl, ?_, ?_, ?_, ?_⟩
  · intro p
    rw [poolLocalIndex_permanent hc, List.getElem?_append_right (Nat.le_add_right _ _)]
    cases p <;> simp [Permanent.AsUint, Permanent.slot, declaredTexture,
      builtAlone_permanentPool]
  · intro p
    rw [poolLocalIndex_transient, List.getElem?_append_right (Nat.le_add_right _ _)]
    cases p <;> simp [Transient.AsUint, Transient.slot, declaredTexture,
      builtAlone_transientPool]
  · intro d hd r hr
    exact (key _ (List.mem_map_of_mem _ hd)).1 r hr
  · intro d hd p hp
    exact (key _ (List.mem_map_of_mem _ hd)).2 p hp

/-- C11 at a concrete input: pools starting at 1000 and 2000, 1920 by 1080, on
an empty builder, where the method adds four and three descriptors. -/
theorem AddMethod_NrdSpecular_references_name_declared_slots_witness :
    env0.WellFormed ∧
    (∀ d ∈ declaredPasses env0 1920 1080, ∀ r ∈ d.desc.resources,
      (r.type = ResourceType.PERMANENT_POOL →
        r.indexInPool < addedToPermanentPool env0 1920 1080 {}) ∧
      (r.type = ResourceType.TRANSIENT_POOL →
        r.indexInPool < addedToTransientPool env0 1920 1080 {})) ∧
    (∀ d ∈ declaredPasses env0 1920 1080, ∀ p ∈ d.pingPongs,
      ∃ r, d.desc.resources[p.resourceIndex]? = some r ∧
        r.type = ResourceType.PERMANENT_POOL ∧
        p.indexInPoolToSwapWith < addedToPermanentPool env0 1920 1080 {}) :=
  ⟨by decide,
    (AddMethod_NrdSpecular_references_name_declared_slots env0 (by decide) 1920 1080
      {}).2.2.2.2.1,
    (AddMethod_NrdSpecular_references_name_declared_slots env0 (by decide) 1920 1080
      {}).2.2.2.2.2⟩

/-! ### C12 -/

set_option synthInstance.maxSize 4096 in
/-- By position in the pass order: each mip of each transient input of a pass
lies in a transient output, on the same slot, of a pass at an earlier
position. -/
theorem declaredPasses_transient_reads_covered {c : Env} (hc : c.WellFormed) (w h : Nat)
    (swapped : Bool) :
    ∀ i < 7,
      ∀ r ∈ (((declaredPasses c w h).map (fun d => d.transientRefs swapped))[i]?.getD
        ([], [])).1,
      ∀ m < r.mipOffset + r.mipNum, r.mipOffset ≤ m →
        ∃ j < i,
          ∃ r' ∈ (((declaredPasses c w h).map (fun d => d.transientRefs swapped))[j]?.getD
            ([], [])).2,
            r'.indexInPool = r.indexInPool ∧ r'.mipOffset ≤ m ∧ m < r'.mipOffset + r'.mipNum := by
  rw [declaredPasses_transient_refs hc w h swapped]
  decide

/-- C12. In the declared pass order and on either kind of frame, every mip of
a transient-pool texture that a pass reads is written by an earlier pass of
the same frame: for a pass at position i and a mip m in the sub-range of one
of its transient inputs there is a pass at a position j < i with a transient
output on the same slot whose sub-range holds m. The slots and mips read are
INTERNAL_DATA, ACCUMULATED mips 0..4 and SCALED_VIEWZ mips 0..4. -/
theorem AddMethod_NrdSpecular_transient_reads_written_before (c : Env) (hc : c.WellFormed)
    (w h : Nat) (swapped : Bool) :
    (∀ (i : Nat) (d : InternalDispatchDesc), (declaredPasses c w h)[i]? = some d →
      ∀ r ∈ d.resolve swapped, r.stateNeeded = DescriptorType.TEXTURE →
        r.type = ResourceType.TRANSIENT_POOL → ∀ m : Nat, r.hasMip m →
          ∃ (j : Nat) (d' : InternalDispatchDesc), j < i ∧
            (declaredPasses c w h)[j]? = some d' ∧
            ∃ r' ∈ d'.resolve swapped, r'.stateNeeded = DescriptorType.STORAGE_TEXTURE ∧
              r'.type = ResourceType.TRANSIENT_POOL ∧ r'.indexInPool = r.indexInPool ∧
              r'.hasMip m) ∧
    (∀ d ∈ declaredPasses c w h, ∀ r ∈ d.resolve swapped,
      r.stateNeeded = DescriptorType.TEXTURE → r.type = ResourceType.TRANSIENT_POOL →
        (r.indexInPool = Transient.INTERNAL_DATA.slot ∧ r.mipOffset + r.mipNum ≤ 1) ∨
        (r.indexInPool = Transient.ACCUMULATED.slot ∧ r.mipOffset + r.mipNum ≤ 5) ∨
        (r.indexInPool = Transient.SCALED_VIEWZ.slot ∧ r.mipOffset + r.mipNum ≤ 5)) := by
  have hT := declaredPasses_transient_refs hc w h swapped
  have hdec := declaredPasses_transient_reads_covered hc w h swapped
  have hslots : ∀ x ∈ (declaredPasses c w h).map (fun d => d.transientRefs swapped),
      ∀ r ∈ x.1,
        (r.indexInPool = Transient.INTERNAL_DATA.slot ∧ r.mipOffset + r.mipNum ≤ 1) ∨
        (r.indexInPool = Transient.ACCUMULATED.slot ∧ r.mipOffset + r.mipNum ≤ 5) ∨
        (r.indexInPool = Transient.SCALED_VIEWZ.slot ∧ r.mipOffset + r.mipNum ≤ 5) := by
    rw [hT]
    decide
  constructor
  · intro i d hid r hr hst hty m hm
    have hlen := declaredPasses_length c w h
    have hi7 : i < 7 := by
      have := (List.getElem?_eq_some.mp hid).1
      omega
    have hFi := getElem?_of_map_eq (rfl : (declaredPasses c w h).map
      (fun d => d.transientRefs swapped) = _) i d hid
    have hrmem : r ∈ (((declaredPasses c w h).map (fun d => d.transientRefs swapped))[i]?.getD
        ([], [])).1 := by
      rw [hFi]
      exact (mem_refsOf _ _ _ _).mpr ⟨hr, hst, hty⟩
    obtain ⟨j, hji, r', hr'mem, hidx, hlo, hhi⟩ := hdec i hi7 r hrmem m hm.2 hm.1
    have hjlen : j < (declaredPasses c w h).length := by omega
    have hjd : (declaredPasses c w h)[j]? = some ((declaredPasses c w h)[j]) :=
      List.getElem?_eq_getElem hjlen
    have hFj := getElem?_of_map_eq (rfl : (declaredPasses c w h).map
      (fun d => d.transientRefs swapped) = _) j _ hjd
    rw [hFj] at hr'mem
    obtain ⟨hr'in, hr'st, hr'ty⟩ := (mem_refsOf _ _ _ _).mp hr'mem
    exact ⟨j, _, hji, hjd, r', hr'in, hr'st, hr'ty, hidx, hlo, hhi⟩
  · intro d hd r hr hst hty
    exact hslots _ (List.mem_map_of_mem _ hd) r ((mem_refsOf _ _ _ _).mpr ⟨hr, hst, hty⟩)

/-- C12 at a concrete input: the history-fix pass (position 3) reads mip 3 of
SCALED_VIEWZ, which the mip-generation pass (position 2) writes. -/
theorem AddMethod_NrdSpecular_transient_reads_written_before_witness :
    env0.WellFormed ∧
    ∃ (d : InternalDispatchDesc) (r : Resource),
      (declaredPasses env0 1920 1080)[3]? = some d ∧ r ∈ d.resolve false ∧
      r = ⟨DescriptorType.TEXTURE, ResourceType.TRANSIENT_POOL, Transient.SCALED_VIEWZ.slot,
        0, 5⟩ ∧
      ∃ (j : Nat) (d' : InternalDispatchDesc), j < 3 ∧
        (declaredPasses env0 1920 1080)[j]? = some d' ∧
        ∃ r' ∈ d'.resolve false, r'.stateNeeded = DescriptorType.STORAGE_TEXTURE ∧
          r'.type = ResourceType.TRANSIENT_POOL ∧ r'.indexInPool = r.indexInPool ∧
          r'.hasMip 3 :=
  ⟨by decide, (declaredPasses env0 1920 1080)[3],
    ⟨DescriptorType.TEXTURE, ResourceType.TRANSIENT_POOL, Transient.SCALED_VIEWZ.slot, 0, 5⟩,
    rfl, by decide, rfl,
    (AddMethod_NrdSpecular_transient_reads_written_before env0 (by decide) 1920 1080
      false).1 3 _ rfl _ (by decide) rfl rfl 3 (by decide)⟩

/-! ### C14 -/

/-- In a pass, on a frame, an input and an output into the same pool with the
same slot have disjoint mip sub-ranges. -/
theorem declaredPasses_inputs_outputs_disjoint {c : Env} (hc : c.WellFormed) (w h : Nat)
    (swapped : Bool) :
    (∀ x ∈ (declaredPasses c w h).map (fun d => d.permanentRefs swapped),
      ∀ rin ∈ x.1, ∀ rout ∈ x.2, rout.indexInPool = rin.indexInPool →
        rin.mipOffset + rin.mipNum ≤ rout.mipOffset ∨
        rout.mipOffset + rout.mipNum ≤ rin.mipOffset) ∧
    (∀ x ∈ (declaredPasses c w h).map (fun d => d.transientRefs swapped),
      ∀ rin ∈ x.1, ∀ rout ∈ x.2, rout.indexInPool = rin.indexInPool →
        rin.mipOffset + rin.mipNum ≤ rout.mipOffset ∨
        rout.mipOffset + rout.mipNum ≤ rin.mipOffset) := by
  rw [declaredPasses_permanent_refs hc w h swapped,
    declaredPasses_transient_refs hc w h swapped]
  cases swapped <;> exact ⟨by decide, by decide⟩

/-- C14. On either kind of frame no declared pass lists the same mip of the
same pool slot both as an input (read-only texture) and as an output (storage
texture). Mip generation reads mip 0 and writes mips 1..4 of ACCUMULATED and
SCALED_VIEWZ; history fix reads mips 1..4 and writes mip 0 of ACCUMULATED;
temporal stabilization reads one stabilized-history slot and writes the
other. -/
theorem AddMethod_NrdSpecular_no_mip_both_input_and_output (c : Env) (hc : c.WellFormed)
    (w h : Nat) (swapped : Bool) :
    (∀ d ∈ declaredPasses c w h, ∀ rin ∈ d.resolve swapped, ∀ rout ∈ d.resolve swapped,
      rin.stateNeeded = DescriptorType.TEXTURE →
      rout.stateNeeded = DescriptorType.STORAGE_TEXTURE →
      (rin.type = ResourceType.PERMANENT_POOL ∨ rin.type = ResourceType.TRANSIENT_POOL) →
      rout.type = rin.type → rout.indexInPool = rin.indexInPool →
      ∀ m : Nat, ¬ (rin.hasMip m ∧ rout.hasMip m)) ∧
    ((declaredPasses c w h).map (fun d => d.transientRefs swapped))[2]? =
      some
        ([⟨DescriptorType.TEXTURE, ResourceType.TRANSIENT_POOL, Transient.ACCUMULATED.slot, 0,
            1⟩,
          ⟨DescriptorType.TEXTURE, ResourceType.TRANSIENT_POOL, Transient.SCALED_VIEWZ.slot, 0,
            1⟩],
         [⟨DescriptorType.STORAGE_TEXTURE, ResourceType.TRANSIENT_POOL,
            Transient.ACCUMULATED.slot, 1, 1⟩,
          ⟨DescriptorType.STORAGE_TEXTURE, ResourceType.TRANSIENT_POOL,
            Transient.SCALED_VIEWZ.slot, 1, 1⟩,
          ⟨DescriptorType.STORAGE_TEXTURE, ResourceType.TRANSIENT_POOL,
            Transient.ACCUMULATED.slot, 2, 1⟩,
          ⟨DescriptorType.STORAGE_TEXTURE, ResourceType.TRANSIENT_POOL,
            Transient.SCALED_VIEWZ.slot, 2, 1⟩,
          ⟨DescriptorType.STORAGE_TEXTURE, ResourceType.TRANSIENT_POOL,
            Transient.ACCUMULATED.slot, 3, 1⟩,
          ⟨DescriptorType.STORAGE_TEXTURE, ResourceType.TRANSIENT_POOL,
            Transient.SCALED_VIEWZ.slot, 3, 1⟩,
          ⟨DescriptorType.STORAGE_TEXTURE, ResourceType.TRANSIENT_POOL,
            Transient.ACCUMULATED.slot, 4, 1⟩,
          ⟨DescriptorType.STORAGE_TEXTURE, ResourceType.TRANSIENT_POOL,
            Transient.SCALED_VIEWZ.slot, 4, 1⟩]) ∧
    ((declaredPasses c w h).map
        (fun d =>
          ((d.transientRefs swapped).1.filter
              (fun r => r.indexInPool == Transient.ACCUMULATED.slot),
            (d.transientRefs swapped).2.filter
              (fun r => r.indexInPool == Transient.ACCUMULATED.slot))))[3]? =
      some
        ([⟨DescriptorType.TEXTURE, ResourceType.TRANSIENT_POOL, Transient.ACCUMULATED.slot, 1,
            4⟩],
         [⟨DescriptorType.STORAGE_TEXTURE, ResourceType.TRANSIENT_POOL,
            Transient.ACCUMULATED.slot, 0, 1⟩]) ∧
    ((declaredPasses c w h).map
        (fun d =>
          ((d.permanentRefs swapped).1.filter
              (fun r => decide (Permanent.STABILIZED_HISTORY_1.slot ≤ r.indexInPool)),
            (d.permanentRefs swapped).2.filter
              (fun r => decide (Permanent.STABILIZED_HISTORY_1.slot ≤ r.indexInPool)))))[6]? =
      some
        ([⟨DescriptorType.TEXTURE, ResourceType.PERMANENT_POOL,
            cond swapped Permanent.STABILIZED_HISTORY_1.slot
              Permanent.STABILIZED_HISTORY_2.slot, 0, 1⟩],
         [⟨DescriptorType.STORAGE_TEXTURE, ResourceType.PERMANENT_POOL,
            cond swapped Permanent.STABILIZED_HISTORY_2.slot
              Permanent.STABILIZED_HISTORY_1.slot, 0, 1⟩]) := by
  have hdis := declaredPasses_inputs_outputs_disjoint hc w h swapped
  have hP := declaredPasses_permanent_refs hc w h swapped
  have hT := declaredPasses_transient_refs hc w h swapped
  refine ⟨?_, ?_, ?_, ?_⟩
  · intro d hd rin hrin rout hrout hsin hsout hpool htype hidx m hm
    have hrange :
        rin.mipOffset + rin.mipNum ≤ rout.mipOffset ∨
        rout.mipOffset + rout.mipNum ≤ rin.mipOffset := by
      rcases hpool with hp | ht
      · exact hdis.1 _ (List.mem_map_of_mem (fun d => d.permanentRefs swapped) hd) rin
          ((mem_refsOf _ _ _ _).mpr ⟨hrin, hsin, hp⟩) rout
          ((mem_refsOf _ _ _ _).mpr ⟨hrout, hsout, htype.trans hp⟩) hidx
      · exact hdis.2 _ (List.mem_map_of_mem (fun d => d.transientRefs swapped) hd) rin
          ((mem_refsOf _ _ _ _).mpr ⟨hrin, hsin, ht⟩) rout
          ((mem_refsOf _ _ _ _).mpr ⟨hrout, hsout, htype.trans ht⟩) hidx
    obtain ⟨⟨h1, h2⟩, ⟨h3, h4⟩⟩ := hm
    omega
  · rw [hT]
    rfl
  · have e :
        (declaredPasses c w h).map
            (fun d =>
              ((d.transientRefs swapped).1.filter
                  (fun r => r.indexInPool == Transient.ACCUMULATED.slot),
                (d.transientRefs swapped).2.filter
                  (fun r => r.indexInPool == Transient.ACCUMULATED.slot))) =
          ((declaredPasses c w h).map (fun d => d.transientRefs swapped)).map
            (fun x =>
              (x.1.filter (fun r => r.indexInPool == Transient.ACCUMULATED.slot),
                x.2.filter (fun r => r.indexInPool == Transient.ACCUMULATED.slot))) := by
      rw [List.map_map]; rfl
    rw [e, hT]
    rfl
  · have e :
        (declaredPasses c w h).map
            (fun d =>
              ((d.permanentRefs swapped).1.filter
                  (fun r => decide (Permanent.STABILIZED_HISTORY_1.slot ≤ r.indexInPool)),
                (d.permanentRefs swapped).2.filter
                  (fun r => decide (Permanent.STABILIZED_HISTORY_1.slot ≤ r.indexInPool)))) =
          ((declaredPasses c w h).map (fun d => d.permanentRefs swapped)).map
            (fun x =>
              (x.1.filter
                  (fun r => decide (Permanent.STABILIZED_HISTORY_1.slot ≤ r.indexInPool)),
                x.2.filter
                  (fun r => decide (Permanent.STABILIZED_HISTORY_1.slot ≤ r.indexInPool)))) := by
      rw [List.map_map]; rfl
    rw [e, hP]
    cases swapped <;> rfl

/-- C14 at a concrete input: on a swapped frame the temporal-stabilization
pass (position 6) reads STABILIZED_HISTORY_1 and writes STABILIZED_HISTORY_2,
and no declared pass reads and writes one mip of one pool slot. -/
theorem AddMethod_NrdSpecular_no_mip_both_input_and_output_witness :
    env0.WellFormed ∧
    (∀ d ∈ declaredPasses env0 1920 1080, ∀ rin ∈ d.resolve true, ∀ rout ∈ d.resolve true,
      rin.stateNeeded = DescriptorType.TEXTURE →
      rout.stateNeeded = DescriptorType.STORAGE_TEXTURE →
      (rin.type = ResourceType.PERMANENT_POOL ∨ rin.type = ResourceType.TRANSIENT_POOL) →
      rout.type = rin.type → rout.indexInPool = rin.indexInPool →
      ∀ m : Nat, ¬ (rin.hasMip m ∧ rout.hasMip m)) ∧
    ((declaredPasses env0 1920 1080).map
        (fun d =>
          ((d.permanentRefs true).1.filter
              (fun r => decide (Permanent.STABILIZED_HISTORY_1.slot ≤ r.indexInPool)),
            (d.permanentRefs true).2.filter
              (fun r => decide (Permanent.STABILIZED_HISTORY_1.slot ≤ r.indexInPool)))))[6]? =
      some
        ([⟨DescriptorType.TEXTURE, ResourceType.PERMANENT_POOL,
            Permanent.STABILIZED_HISTORY_1.slot, 0, 1⟩],
         [⟨DescriptorType.STORAGE_TEXTURE, ResourceType.PERMANENT_POOL,
            Permanent.STABILIZED_HISTORY_2.slot, 0, 1⟩]) :=
  ⟨by decide,
    (AddMethod_NrdSpecular_no_mip_both_input_and_output env0 (by decide) 1920 1080 true).1,
    (AddMethod_NrdSpecular_no_mip_both_input_and_output env0 (by decide) 1920 1080
      true).2.2.2⟩

/-! ### C13 -/

/-- On a frame, the slot temporal stabilization reads is referenced by no
other pass and written by none: a permanent output names another slot, and a
permanent input naming it is at position 6. -/
theorem declaredPasses_history_slot_untouched {c : Env} (hc : c.WellFormed) (w h : Nat)
    (swapped : Bool) :
    ∀ i < 7,
      (∀ r ∈ (((declaredPasses c w h).map (fun d => d.permanentRefs swapped))[i]?.getD
          ([], [])).2,
        r.indexInPool ≠
          cond swapped Permanent.STABILIZED_HISTORY_1.slot Permanent.STABILIZED_HISTORY_2.slot) ∧
      (∀ r ∈ (((declaredPasses c w h).map (fun d => d.permanentRefs swapped))[i]?.getD
          ([], [])).1,
        r.indexInPool =
          cond swapped Permanent.STABILIZED_HISTORY_1.slot Permanent.STABILIZED_HISTORY_2.slot →
        i = 6) := by
  rw [declaredPasses_permanent_refs hc w h swapped]
  cases swapped <;> decide

/-- C13. Reading the fourth argument of `PushInput` / `PushOutput` as the slot
used instead on alternate frames: on every frame there are a slot `readSlot`
and a slot `writeSlot`, the two stabilized-history slots in one order or the
other, such that temporal stabilization reads `readSlot` and writes
`writeSlot`, and on the next frame reads `writeSlot` and writes `readSlot`;
in the six passes before it the only references to a stabilized-history slot
are the four uses of TEMP (written by pre-blur and blur, read by temporal
accumulation and post-blur), all resolving to `writeSlot`; and no pass of the
frame writes `readSlot`, which only temporal stabilization reads. -/
theorem AddMethod_NrdSpecular_ping_pong_keeps_history (c : Env) (hc : c.WellFormed)
    (w h : Nat) (frame : Nat) :
    ∃ readSlot writeSlot : Nat,
      ((readSlot = Permanent.STABILIZED_HISTORY_2.slot ∧
          writeSlot = Permanent.STABILIZED_HISTORY_1.slot) ∨
        (readSlot = Permanent.STABILIZED_HISTORY_1.slot ∧
          writeSlot = Permanent.STABILIZED_HISTORY_2.slot)) ∧
      readSlot ≠ writeSlot ∧
      ((declaredPasses c w h).map (fun d => d.permanentRefs (frameSwapped frame)))[6]? =
        some
          ([⟨DescriptorType.TEXTURE, ResourceType.PERMANENT_POOL, readSlot, 0, 1⟩,
            ⟨DescriptorType.TEXTURE, ResourceType.PERMANENT_POOL, Permanent.HISTORY.slot, 0,
              1⟩],
           [⟨DescriptorType.STORAGE_TEXTURE, ResourceType.PERMANENT_POOL,
              Permanent.PREV_VIEWZ_NORMAL_ROUGHNESS_ACCUMSPEEDS.slot, 0, 1⟩,
            ⟨DescriptorType.STORAGE_TEXTURE, ResourceType.PERMANENT_POOL, writeSlot, 0, 1⟩]) ∧
      ((declaredPasses c w h).map (fun d => d.permanentRefs (frameSwapped (frame + 1))))[6]? =
        some
          ([⟨DescriptorType.TEXTURE, ResourceType.PERMANENT_POOL, writeSlot, 0, 1⟩,
            ⟨DescriptorType.TEXTURE, ResourceType.PERMANENT_POOL, Permanent.HISTORY.slot, 0,
              1⟩],
           [⟨DescriptorType.STORAGE_TEXTURE, ResourceType.PERMANENT_POOL,
              Permanent.PREV_VIEWZ_NORMAL_ROUGHNESS_ACCUMSPEEDS.slot, 0, 1⟩,
            ⟨DescriptorType.STORAGE_TEXTURE, ResourceType.PERMANENT_POOL, readSlot, 0, 1⟩]) ∧
      ((declaredPasses c w h).map (fun d => d.permanentRefs (frameSwapped frame))).take 6 =
        [([],
          [⟨DescriptorType.STORAGE_TEXTURE, ResourceType.PERMANENT_POOL, writeSlot, 0, 1⟩]),
         ([⟨DescriptorType.TEXTURE, ResourceType.PERMANENT_POOL, Permanent.HISTORY.slot, 0, 1⟩,
           ⟨DescriptorType.TEXTURE, ResourceType.PERMANENT_POOL, writeSlot, 0, 1⟩,
           ⟨DescriptorType.TEXTURE, ResourceType.PERMANENT_POOL,
             Permanent.PREV_VIEWZ_NORMAL_ROUGHNESS_ACCUMSPEEDS.slot, 0, 1⟩],
          []),
         ([], []),
         ([], []),
         ([],
          [⟨DescriptorType.STORAGE_TEXTURE, ResourceType.PERMANENT_POOL, writeSlot, 0, 1⟩]),
         ([⟨DescriptorType.TEXTURE, ResourceType.PERMANENT_POOL, writeSlot, 0, 1⟩],
          [⟨DescriptorType.STORAGE_TEXTURE, ResourceType.PERMANENT_POOL,
             Permanent.HISTORY.slot, 0, 1⟩])] ∧
      (∀ (i : Nat) (d : InternalDispatchDesc), (declaredPasses c w h)[i]? = some d →
        ∀ r ∈ d.resolve (frameSwapped frame), r.type = ResourceType.PERMANENT_POOL →
          r.indexInPool = readSlot →
            (r.stateNeeded = DescriptorType.STORAGE_TEXTURE → False) ∧
            (r.stateNeeded = DescriptorType.TEXTURE → i = 6)) := by
  rw [frameSwapped_succ]
  generalize frameSwapped frame = swapped
  have hP := declaredPasses_permanent_refs hc w h swapped
  have hP' := declaredPasses_permanent_refs hc w h (!swapped)
  have hun := declaredPasses_history_slot_untouched hc w h swapped
  refine ⟨cond swapped Permanent.STABILIZED_HISTORY_1.slot Permanent.STABILIZED_HISTORY_2.slot,
    cond swapped Permanent.STABILIZED_HISTORY_2.slot Permanent.STABILIZED_HISTORY_1.slot,
    ?_, ?_, ?_, ?_, ?_, ?_⟩
  · cases swapped <;> simp
  · cases swapped <;> decide
  · rw [hP]; cases swapped <;> rfl
  · rw [hP']; cases swapped <;> rfl
  · rw [hP]; cases swapped <;> rfl
  · intro i d hid r hr hty hidx
    have hi7 : i < 7 := by
      have := (List.getElem?_eq_some.mp hid).1
      have hlen := declaredPasses_length c w h
      omega
    have hFi := getElem?_of_map_eq (rfl : (declaredPasses c w h).map
      (fun d => d.permanentRefs swapped) = _) i d hid
    obtain ⟨hw, hrd⟩ := hun i hi7
    rw [hFi] at hw hrd
    constructor
    · intro hst
      exact hw r ((mem_refsOf _ _ _ _).mpr ⟨hr, hst, hty⟩) hidx
    · intro hst
      exact hrd r ((mem_refsOf _ _ _ _).mpr ⟨hr, hst, hty⟩) hidx

/-- C13 at concrete inputs: on frame 0 temporal stabilization reads
STABILIZED_HISTORY_2 and writes STABILIZED_HISTORY_1, on frame 1 the other
way round. -/
theorem AddMethod_NrdSpecular_ping_pong_keeps_history_witness :
    env0.WellFormed ∧
    (∃ readSlot writeSlot : Nat, readSlot ≠ writeSlot ∧
      ((declaredPasses env0 1920 1080).map (fun d => d.permanentRefs (frameSwapped 0)))[6]? =
        some
          ([⟨DescriptorType.TEXTURE, ResourceType.PERMANENT_POOL, readSlot, 0, 1⟩,
            ⟨DescriptorType.TEXTURE, ResourceType.PERMANENT_POOL, Permanent.HISTORY.slot, 0,
              1⟩],
           [⟨DescriptorType.STORAGE_TEXTURE, ResourceType.PERMANENT_POOL,
              Permanent.PREV_VIEWZ_NORMAL_ROUGHNESS_ACCUMSPEEDS.slot, 0, 1⟩,
            ⟨DescriptorType.STORAGE_TEXTURE, ResourceType.PERMANENT_POOL, writeSlot, 0, 1⟩]) ∧
      ((declaredPasses env0 1920 1080).map (fun d => d.permanentRefs (frameSwapped 1)))[6]? =
        some
          ([⟨DescriptorType.TEXTURE, ResourceType.PERMANENT_POOL, writeSlot, 0, 1⟩,
            ⟨DescriptorType.TEXTURE, ResourceType.PERMANENT_POOL, Permanent.HISTORY.slot, 0,
              1⟩],
           [⟨DescriptorType.STORAGE_TEXTURE, ResourceType.PERMANENT_POOL,
              Permanent.PREV_VIEWZ_NORMAL_ROUGHNESS_ACCUMSPEEDS.slot, 0, 1⟩,
            ⟨DescriptorType.STORAGE_TEXTURE, ResourceType.PERMANENT_POOL, readSlot, 0, 1⟩])) := by
  refine ⟨by decide, ?_⟩
  obtain ⟨readSlot, writeSlot, _, hne, h0, h1, _⟩ :=
    AddMethod_NrdSpecular_ping_pong_keeps_history env0 (by decide) 1920 1080 0
  exact ⟨readSlot, writeSlot, hne, h0, h1⟩

end nrd
